import Mathlib

/-!
Landing-page sections: reveal timers and the contact form.

A shallow embedding of the interactive logic of three React components:

* `src/components/BlogSection.jsx` (visibility-driven staggered reveal of a
  headline and three cards),
* `src/components/ContectSection.jsx` (the same reveal for a headline and the
  main content, plus the contact form posting to a remote endpoint),
* `src/components/ContentSection.jsx` (the static contact section) and
  `src/App.js` (which section modules the page mounts).

A component is a record of its `useState` cells together with the part of the
browser it talks to (the clock, the pending `setTimeout` timers, the requests
handed to `fetch`).  Every browser event is one atomic step: the handler runs,
React re-renders and the effects whose dependencies changed run (previous
cleanup first) before the next event is processed.  Timers are ideal: a timer
fires as soon as the clock reaches its due time.
-/

namespace Work2

/-! ## JavaScript values -/

/-- A JavaScript number: a finite double `mantissa * 2 ^ exponent`, an infinity, or NaN. -/
inductive JsNum where
  | finite (mantissa exponent : Int)
  | infinity (negative : Bool)
  | nan

/-- A JavaScript value as far as the contact form sees one: `undefined` and the
values `JSON.parse` can build. -/
inductive JsVal where
  | undefined
  | null
  | bool (b : Bool)
  | num (n : JsNum)
  | str (s : String)
  | arr (items : List JsVal)
  | obj (props : List (String × JsVal))

/-- The abstract operation ToBoolean: what `||`, `&&` and `?:` test. -/
def JsVal.toBoolean : JsVal → Bool
  | .undefined => false
  | .null => false
  | .bool b => b
  | .num (.finite m _) => m != 0
  | .num (.infinity _) => true
  | .num .nan => false
  | .str s => s != ""
  | .arr _ => true
  | .obj _ => true

/-- The expression `a || b`. -/
def jsOr (a b : JsVal) : JsVal :=
  if a.toBoolean then a else b

/-- The expression `v.message`.  `none` is the TypeError thrown when `v` is
`null` or `undefined`; a value without that property reads as `undefined`. -/
def getMessage : JsVal → Option JsVal
  | .undefined => none
  | .null => none
  | .obj props =>
    match props.lookup "message" with
    | some m => some m
    | none => some .undefined
  | _ => some .undefined

/-! ## Timers -/

/-- A pending `setTimeout`: its handle, the clock value at which it fires and
the state cell its callback sets to `true`. -/
structure Timer (τ : Type) where
  id : Nat
  due : Nat
  target : τ

/-- The browser clock (in ms) and the timers that are scheduled and not yet
fired or cleared. -/
structure TimerQueue (τ : Type) where
  now : Nat
  nextId : Nat
  pending : List (Timer τ)

/-- The call `setTimeout(callback, delay)`: returns the queue and the new handle. -/
def TimerQueue.setTimeout {τ : Type} (q : TimerQueue τ) (target : τ) (delay : Nat) :
    TimerQueue τ × Nat :=
  ({ q with nextId := q.nextId + 1,
            pending := q.pending ++ [{ id := q.nextId, due := q.now + delay, target := target }] },
   q.nextId)

/-- The call `clearTimeout(handle)`. -/
def TimerQueue.clearTimeout {τ : Type} (q : TimerQueue τ) (handle : Nat) : TimerQueue τ :=
  { q with pending := q.pending.filter (fun t => t.id != handle) }

/-- The cleanup `timers.forEach(timer => clearTimeout(timer))`. -/
def TimerQueue.clearAll {τ : Type} (q : TimerQueue τ) (handles : List Nat) : TimerQueue τ :=
  handles.foldl TimerQueue.clearTimeout q

/-- The timers that fire when the clock moves on by `ms`, in firing order
(by due time, timers due together in scheduling order). -/
def TimerQueue.dueWithin {τ : Type} (q : TimerQueue τ) (ms : Nat) : List (Timer τ) :=
  (q.pending.filter (fun t => decide (t.due ≤ q.now + ms))).insertionSort (fun a b => a.due ≤ b.due)

/-- The queue after the clock moved on by `ms` and the due timers fired. -/
def TimerQueue.advance {τ : Type} (q : TimerQueue τ) (ms : Nat) : TimerQueue τ :=
  { q with now := q.now + ms,
           pending := q.pending.filter (fun t => !decide (t.due ≤ q.now + ms)) }

/-! ## The networked contact section (`ContectSection.jsx`) -/

/-- The outcome of `fetch(...)` as `handleSubmit` observes it: the promise
rejects, or it resolves to a response with a status and a body, where `json`
is what `response.json()` resolves to (`none`: it rejects, the body is not JSON). -/
inductive FetchOutcome where
  | rejected
  | response (status : Nat) (json : Option JsVal)

/-- The getter `response.ok`: the status is in 200..299. -/
def responseOk (status : Nat) : Bool :=
  decide (200 ≤ status) && decide (status ≤ 299)

/-- A call of `fetch(url, init)`. -/
structure FetchRequest where
  url : String
  method : String
  headers : List (String × String)
  body : JsVal

/-- The state cells set by the reveal timers of the contact section. -/
inductive ContactTarget where
  | headline
  | mainContent
deriving DecidableEq

/-- The `useState` cells of `ContactSection`, the cleanup returned by the last
run of its reveal effect, and its environment: timers, the requests whose
`handleSubmit` is suspended at `await`, and every request issued so far. -/
structure ContactState where
  sectionIsVisible : Bool
  headlineVisible : Bool
  mainContentVisible : Bool
  fullName : String
  email : String
  message : String
  isSubmitting : Bool
  submitSuccess : Bool
  submitError : JsVal
  cleanup : Option (List Nat)
  timers : TimerQueue ContactTarget
  inFlight : List FetchRequest
  fetchLog : List FetchRequest

def backendApiUrl : String := "https://work2-vn12.onrender.com/api/contact/submit/"

def failedToSendMessage : JsVal := .str "Failed to send message. Please try again."

def unexpectedErrorMessage : JsVal :=
  .str "An unexpected error occurred. Please check your network connection."

/-- The request `handleSubmit` builds from the cells of the current render. -/
def submitRequest (s : ContactState) : FetchRequest :=
  { url := backendApiUrl
    method := "POST"
    headers := [("Content-Type", "application/json")]
    body := .obj [("fullName", .str s.fullName), ("email", .str s.email),
                  ("message", .str s.message)] }

/-- The function `handleSubmit` up to its first `await`: the three setters, then the
call of `fetch` with the cells of the render the handler was created in
(`e.preventDefault()` only keeps the browser from navigating). -/
def handleSubmitBegin (s : ContactState) : ContactState :=
  { s with isSubmitting := true, submitSuccess := false, submitError := .str "",
           inFlight := s.inFlight ++ [submitRequest s],
           fetchLog := s.fetchLog ++ [submitRequest s] }

/-- The `catch` block of `handleSubmit`. -/
def handleSubmitCatch (s : ContactState) : ContactState :=
  { s with submitError := unexpectedErrorMessage }

/-- The `try` block of `handleSubmit` after `fetch` settled, followed by `catch` when it throws. -/
def handleSubmitTry (o : FetchOutcome) (s : ContactState) : ContactState :=
  match o with
  | .rejected => handleSubmitCatch s
  | .response status json =>
    if responseOk status then
      { s with submitSuccess := true, fullName := "", email := "", message := "" }
    else
      match json with
      | none => handleSubmitCatch s
      | some errorData =>
        match getMessage errorData with
        | none => handleSubmitCatch s
        | some m => { s with submitError := jsOr m failedToSendMessage }

/-- The `finally` block of `handleSubmit`. -/
def handleSubmitFinally (s : ContactState) : ContactState :=
  { s with isSubmitting := false }

/-- The function `handleSubmit` from the point where `fetch` settles with outcome `o` to its end,
run on the cells as they are at that moment. -/
def handleSubmitResume (o : FetchOutcome) (s : ContactState) : ContactState :=
  handleSubmitFinally (handleSubmitTry o s)

/-- The callback of a reveal timer: `setHeadlineVisible(true)` or `setMainContentVisible(true)`. -/
def ContactState.fire (s : ContactState) : ContactTarget → ContactState
  | .headline => { s with headlineVisible := true }
  | .mainContent => { s with mainContentVisible := true }

/-- The body of the reveal effect of `ContactSection`, run after a render in which
`sectionIsVisible` differs from the previous render (and after the first render). -/
def contactEffect (s : ContactState) : ContactState :=
  if s.sectionIsVisible then
    let r1 := s.timers.setTimeout .headline 100
    let r2 := r1.1.setTimeout .mainContent 300
    { s with timers := r2.1, cleanup := some [r1.2, r2.2] }
  else
    { s with headlineVisible := false, mainContentVisible := false,
             fullName := "", email := "", message := "",
             isSubmitting := false, submitSuccess := false, submitError := .str "",
             cleanup := none }

/-- Run the cleanup the previous effect run returned, if it returned one. -/
def contactCleanup (s : ContactState) : ContactState :=
  match s.cleanup with
  | some handles => { s with timers := s.timers.clearAll handles, cleanup := none }
  | none => s

/-- The observer callback `setIsVisible(entry.isIntersecting)`: setting the cell to
the value it has is no update; a new value re-renders and re-runs the reveal effect. -/
def contactSetIsVisible (isIntersecting : Bool) (s : ContactState) : ContactState :=
  if isIntersecting = s.sectionIsVisible then s
  else contactEffect (contactCleanup { s with sectionIsVisible := isIntersecting })

/-- The clock moves on by `ms`: the due timers fire in order. -/
def contactElapse (ms : Nat) (s : ContactState) : ContactState :=
  (s.timers.dueWithin ms).foldl (fun st t => st.fire t.target)
    { s with timers := s.timers.advance ms }

/-- The form is submitted through its submit button, which is rendered with
`disabled={isSubmitting}`: a disabled button submits nothing. -/
def contactSubmit (s : ContactState) : ContactState :=
  if s.isSubmitting then s else handleSubmitBegin s

/-- The `fetch` of the `k`-th suspended `handleSubmit` settles and that call runs to its end. -/
def contactSettle (k : Nat) (o : FetchOutcome) (s : ContactState) : ContactState :=
  if k < s.inFlight.length then
    handleSubmitResume o { s with inFlight := s.inFlight.eraseIdx k }
  else s

/-- What can happen to a mounted `ContactSection`. -/
inductive ContactEvent where
  | intersect (isIntersecting : Bool)
  | elapse (ms : Nat)
  | changeFullName (value : String)
  | changeEmail (value : String)
  | changeMessage (value : String)
  | submit
  | settle (k : Nat) (o : FetchOutcome)

def contactStep (s : ContactState) : ContactEvent → ContactState
  | .intersect b => contactSetIsVisible b s
  | .elapse ms => contactElapse ms s
  | .changeFullName v => { s with fullName := v }
  | .changeEmail v => { s with email := v }
  | .changeMessage v => { s with message := v }
  | .submit => contactSubmit s
  | .settle k o => contactSettle k o s

def contactRun (s : ContactState) (evs : List ContactEvent) : ContactState :=
  evs.foldl contactStep s

/-- The first render of `ContactSection` (the initial values of its cells) at clock
`now`, the next timer handle being `nextId`. -/
def contactInitial (now nextId : Nat) : ContactState :=
  { sectionIsVisible := false, headlineVisible := false, mainContentVisible := false,
    fullName := "", email := "", message := "",
    isSubmitting := false, submitSuccess := false, submitError := .str "",
    cleanup := none,
    timers := { now := now, nextId := nextId, pending := [] },
    inFlight := [], fetchLog := [] }

/-- The mounted section: the first render followed by the first run of the reveal effect. -/
def contactMount (now nextId : Nat) : ContactState :=
  contactEffect (contactInitial now nextId)

/-! ## The blog section (`BlogSection.jsx`) -/

/-- The state cells set by the reveal timers of the blog section. -/
inductive BlogTarget where
  | headline
  | card (index : Nat)
deriving DecidableEq

/-- The `id` fields of the three entries of `blogPosts`. -/
def blogPosts : List Nat := [1, 2, 3]

/-- The `useState` cells of `BlogSection`, the cleanup returned by the last run of
its reveal effect, and its timers. -/
structure BlogState where
  sectionIsVisible : Bool
  headlineVisible : Bool
  cardVisibleStates : List Bool
  hoveredCard : Option Nat
  cleanup : Option (List Nat)
  timers : TimerQueue BlogTarget

/-- The callback of a reveal timer: `setHeadlineVisible(true)`, or the updater that
copies `cardVisibleStates` and stores `true` at `index` (always below the length here). -/
def BlogState.fire (s : BlogState) : BlogTarget → BlogState
  | .headline => { s with headlineVisible := true }
  | .card index => { s with cardVisibleStates := s.cardVisibleStates.set index true }

/-- One round of `blogPosts.forEach((_, index) => timers.push(setTimeout(..., 300 + index * 150)))`. -/
def blogScheduleCard (acc : TimerQueue BlogTarget × List Nat) (index : Nat) :
    TimerQueue BlogTarget × List Nat :=
  let r := acc.1.setTimeout (.card index) (300 + index * 150)
  (r.1, acc.2 ++ [r.2])

/-- The body of the reveal effect of `BlogSection`. -/
def blogEffect (s : BlogState) : BlogState :=
  if s.sectionIsVisible then
    let r0 := s.timers.setTimeout .headline 100
    let r := (List.range blogPosts.length).foldl blogScheduleCard (r0.1, [r0.2])
    { s with timers := r.1, cleanup := some r.2 }
  else
    { s with headlineVisible := false,
             cardVisibleStates := List.replicate blogPosts.length false,
             cleanup := none }

def blogCleanup (s : BlogState) : BlogState :=
  match s.cleanup with
  | some handles => { s with timers := s.timers.clearAll handles, cleanup := none }
  | none => s

def blogSetIsVisible (isIntersecting : Bool) (s : BlogState) : BlogState :=
  if isIntersecting = s.sectionIsVisible then s
  else blogEffect (blogCleanup { s with sectionIsVisible := isIntersecting })

def blogElapse (ms : Nat) (s : BlogState) : BlogState :=
  (s.timers.dueWithin ms).foldl (fun st t => st.fire t.target)
    { s with timers := s.timers.advance ms }

/-- What can happen to a mounted `BlogSection`. -/
inductive BlogEvent where
  | intersect (isIntersecting : Bool)
  | elapse (ms : Nat)
  | mouseEnter (postId : Nat)
  | mouseLeave

def blogStep (s : BlogState) : BlogEvent → BlogState
  | .intersect b => blogSetIsVisible b s
  | .elapse ms => blogElapse ms s
  | .mouseEnter postId => { s with hoveredCard := some postId }
  | .mouseLeave => { s with hoveredCard := none }

def blogRun (s : BlogState) (evs : List BlogEvent) : BlogState :=
  evs.foldl blogStep s

def blogInitial (now nextId : Nat) : BlogState :=
  { sectionIsVisible := false, headlineVisible := false,
    cardVisibleStates := List.replicate 3 false, hoveredCard := none,
    cleanup := none,
    timers := { now := now, nextId := nextId, pending := [] } }

def blogMount (now nextId : Nat) : BlogState :=
  blogEffect (blogInitial now nextId)

/-! ## The page (`App.js`) and the two contact modules -/

/-- The handlers a contact form can be given as `onSubmit`. -/
inductive SubmitHandler where
  | handleSubmit
deriving DecidableEq

/-- What matters of a section module here: the name of its default export, the
`onSubmit` prop of the `<form>` it renders (`none`: the form has no such prop) and
the URLs its code passes to `fetch`. -/
structure SectionModule where
  defaultExport : String
  formOnSubmit : Option SubmitHandler
  fetchCalls : List String
deriving DecidableEq

/-- Module `src/components/ContectSection.jsx`: its form is
`<form onSubmit={handleSubmit} ...>`. -/
def contectSectionModule : SectionModule :=
  { defaultExport := "ContactSection", formOnSubmit := some .handleSubmit,
    fetchCalls := [backendApiUrl] }

/-- Module `src/components/ContentSection.jsx`: its form is `<form className="...">`,
no handler, no `fetch`. -/
def contentSectionModule : SectionModule :=
  { defaultExport := "ContactSection", formOnSubmit := none, fetchCalls := [] }

/-- The contact modules by the path an `import` in `src/App.js` names them with. -/
def resolveModule (path : String) : Option SectionModule :=
  if path = "./components/ContectSection" then some contectSectionModule
  else if path = "./components/ContentSection" then some contentSectionModule
  else none

/-- The default imports of `App.js`: local name and module path, in source order. -/
def appImports : List (String × String) :=
  [("React", "react"),
   ("HeroSection", "./components/HeroSection"),
   ("AboutSection", "./components/AboutSection"),
   ("WhyChooseUsSection", "./components/WhyChooseUsSection"),
   ("WhyChooseSection", "./components/WhyChooseSection/WhyChooseUsSection"),
   ("ServiceSection", "./components/ServiceSection"),
   ("PricingSection", "./components/PricingSecction"),
   ("GallerySection", "./components/GallerySection"),
   ("TestimonialsSection", "./components/TestimonialSection"),
   ("FAQSection", "./components/FAQSection"),
   ("BlogSection", "./components/BlogSection"),
   ("ContactSection", "./components/ContentSection"),
   ("Footer", "./components/Footer")]

/-- The elements `App` renders, top to bottom. -/
def appElements : List String :=
  ["HeroSection", "AboutSection", "WhyChooseUsSection", "ServiceSection", "PricingSection",
   "WhyChooseSection", "GallerySection", "TestimonialsSection", "FAQSection", "BlogSection",
   "ContactSection", "Footer"]

/-- The module behind the element `<name />` of `App`, when `App` renders that
element and it is one of the contact modules. -/
def appMounted (name : String) : Option SectionModule :=
  if name ∈ appElements then (appImports.lookup name).bind resolveModule else none

/-- No event of the sequence is the completion of a suspended `handleSubmit`. -/
def noSettle (evs : List ContactEvent) : Bool :=
  evs.all fun e =>
    match e with
    | .settle _ _ => false
    | _ => true

/-- The event sequence never moves the section out of view while a request is in flight. -/
def neverHiddenInFlight (s : ContactState) : List ContactEvent → Bool
  | [] => true
  | e :: evs =>
    (match e with
      | .intersect false => s.inFlight.isEmpty || !s.sectionIsVisible
      | _ => true) && neverHiddenInFlight (contactStep s e) evs

/-- The submit control is disabled exactly while the one request is in flight. -/
def SubmitGuarded (s : ContactState) : Prop :=
  s.inFlight.length ≤ 1 ∧ (s.isSubmitting = true ↔ s.inFlight ≠ [])

/-- A visitor fills the form in and submits it, the section leaves the viewport and
comes back while the request is still in flight, and the visitor fills the form in again. -/
def resubmitAfterScroll : List ContactEvent :=
  [.intersect true,
   .changeFullName "Asha", .changeEmail "asha@example.com", .changeMessage "Hello",
   .submit,
   .intersect false, .intersect true,
   .changeFullName "Asha", .changeEmail "asha@example.com", .changeMessage "Hello again"]

/-- The section is in view and a visitor has filled the form in. -/
def filledForm : ContactState :=
  contactRun (contactMount 0 1)
    [.intersect true, .changeFullName "Asha", .changeEmail "asha@example.com",
     .changeMessage "Hello"]

/-- Things that happen while a request is in flight. -/
def whileWaiting : List ContactEvent :=
  [.elapse 250, .changeMessage "Hello there", .intersect true, .submit]

/-- The reveal flag the render reads for a target: `headlineVisible`, or
`cardVisibleStates[index]` (a missing entry reads as falsy). -/
def BlogState.flag (s : BlogState) : BlogTarget → Bool
  | .headline => s.headlineVisible
  | .card index => s.cardVisibleStates.getD index false

/-- The reveal flag the render reads for a target. -/
def ContactState.flag (s : ContactState) : ContactTarget → Bool
  | .headline => s.headlineVisible
  | .mainContent => s.mainContentVisible

/-- The time that passes during an event sequence. -/
def blogElapsed : List BlogEvent → Nat
  | [] => 0
  | .elapse ms :: evs => ms + blogElapsed evs
  | _ :: evs => blogElapsed evs

/-- The observer never reports the section as out of view during the event sequence. -/
def blogStaysVisible (evs : List BlogEvent) : Bool :=
  evs.all fun e =>
    match e with
    | .intersect false => false
    | _ => true

/-- The shape every reachable state of `BlogSection` has: three card flags; out of
view there is no cleanup and every flag is `false`; every pending timer is one of
those the current cleanup holds the handle of. -/
def BlogInv (s : BlogState) : Prop :=
  s.cardVisibleStates.length = 3 ∧
  (s.sectionIsVisible = false →
    s.cleanup = none ∧ s.headlineVisible = false ∧
      s.cardVisibleStates = [false, false, false]) ∧
  (∀ t ∈ s.timers.pending, ∃ hs, s.cleanup = some hs ∧ t.id ∈ hs)

/-- Every pending timer of `q` was scheduled when the next handle was `n` or later:
handles are issued in increasing order, so its handle is at least `n` and below
the next one. -/
def ScheduledSince {τ : Type} (n : Nat) (q : TimerQueue τ) : Prop :=
  n ≤ q.nextId ∧ ∀ t ∈ q.pending, n ≤ t.id ∧ t.id < q.nextId

/-- The state of `BlogSection` just after the observer reports it as out of view,
following any event sequence since the mount. -/
def blogFalseEdge (now nextId : Nat) (before : List BlogEvent) : BlogState :=
  blogStep (blogRun (blogMount now nextId) before) (.intersect false)

/-- The state of `ContactSection` just after the observer reports it as out of view,
following any event sequence since the mount. -/
def contactFalseEdge (now nextId : Nat) (before : List ContactEvent) : ContactState :=
  contactStep (contactRun (contactMount now nextId) before) (.intersect false)

/-- The shape every reachable state of `ContactSection` has: out of view there is no
cleanup and both reveal flags are `false`; every pending timer is one of those the
current cleanup holds the handle of. -/
def ContactInv (s : ContactState) : Prop :=
  (s.sectionIsVisible = false →
    s.cleanup = none ∧ s.headlineVisible = false ∧ s.mainContentVisible = false) ∧
  (∀ t ∈ s.timers.pending, ∃ hs, s.cleanup = some hs ∧ t.id ∈ hs)

/-- The four timers one run of the reveal effect of `BlogSection` schedules at clock
`now` when the next handle is `nextId`. -/
def blogCycleTimers (now nextId : Nat) : List (Timer BlogTarget) :=
  [{ id := nextId, due := now + 100, target := .headline },
   { id := nextId + 1, due := now + 300, target := .card 0 },
   { id := nextId + 2, due := now + 450, target := .card 1 },
   { id := nextId + 3, due := now + 600, target := .card 2 }]

/-- The state of `BlogSection` `t` ms after a true edge at clock `now` that was given
the handles from `nextId` on, the section having stayed in view since. -/
def blogRevealedAt (now nextId : Nat) (hovered : Option Nat) (t : Nat) : BlogState :=
  { sectionIsVisible := true
    headlineVisible := decide (100 ≤ t)
    cardVisibleStates := [decide (300 ≤ t), decide (450 ≤ t), decide (600 ≤ t)]
    hoveredCard := hovered
    cleanup := some [nextId, nextId + 1, nextId + 2, nextId + 3]
    timers :=
      { now := now + t
        nextId := nextId + 4
        pending := (blogCycleTimers now nextId).filter (fun x => !decide (x.due ≤ now + t)) } }

/-- A contact section in view, fully revealed, whose submission was answered with
an error, and whose form has been edited since. -/
def contactAfterError : ContactState :=
  contactRun filledForm
    [.elapse 400, .submit,
     .settle 0 (.response 400 (some (.obj [("message", .str "Invalid email")]))),
     .changeEmail "asha@example.org"]

/-! ## The hook `useSectionVisibility` (the same in all three component files) -/

/-- An `IntersectionObserver`: the elements it observes.  While it observes an
element the browser keeps it registered and delivers its callback. -/
structure IntersectionObserver where
  targets : List Nat
deriving DecidableEq

/-- The call `observer.observe(element)`. -/
def IntersectionObserver.observe (o : IntersectionObserver) (element : Nat) :
    IntersectionObserver :=
  if element ∈ o.targets then o else { targets := o.targets ++ [element] }

/-- The call `observer.unobserve(element)`. -/
def IntersectionObserver.unobserve (o : IntersectionObserver) (element : Nat) :
    IntersectionObserver :=
  { targets := o.targets.filter (fun t => t != element) }

/-- One use of the hook: the cell `isVisible`, the ref (`none` is `ref.current === null`,
elements are told apart by a number) and the observer its effect created, which the
cleanup closure holds on to. -/
structure SectionVisibility where
  isVisible : Bool
  refCurrent : Option Nat
  observer : Option IntersectionObserver
deriving DecidableEq

/-- The first render: `useState(false)`, `useRef(null)`, no effect run yet. -/
def useSectionVisibilityInitial : SectionVisibility :=
  { isVisible := false, refCurrent := none, observer := none }

/-- The body of the effect: `new IntersectionObserver(...)`, then
`if (ref.current) observer.observe(ref.current)`. -/
def useSectionVisibilityEffect (h : SectionVisibility) : SectionVisibility :=
  match h.refCurrent with
  | some element => { h with observer := some (IntersectionObserver.observe ⟨[]⟩ element) }
  | none => { h with observer := some ⟨[]⟩ }

/-- The cleanup the effect returns: `if (ref.current) observer.unobserve(ref.current)`,
reading `ref.current` when the cleanup runs. -/
def useSectionVisibilityCleanup (h : SectionVisibility) : SectionVisibility :=
  match h.refCurrent with
  | some element => { h with observer := h.observer.map (fun o => o.unobserve element) }
  | none => h

/-- Mounting a section whose root is `element`: React renders, attaches the ref of the
`<section ref=...>` element, then runs the effect. -/
def sectionMount (element : Nat) : SectionVisibility :=
  useSectionVisibilityEffect { useSectionVisibilityInitial with refCurrent := some element }

/-- Removing the section from the page: React detaches the ref of the removed element
during the commit and runs the cleanups of `useEffect` afterwards. -/
def sectionUnmount (h : SectionVisibility) : SectionVisibility :=
  useSectionVisibilityCleanup { h with refCurrent := none }

/-- The observers that are still registered: those that observe an element. -/
def registeredObservers (h : SectionVisibility) : List IntersectionObserver :=
  h.observer.toList.filter (fun o => !o.targets.isEmpty)

/-! ## The dependency array of the reveal effect of `BlogSection` -/

/-- The dependency array `[sectionIsVisible, blogPosts.length]` of a render. -/
def blogDeps (s : BlogState) : Bool × Nat :=
  (s.sectionIsVisible, blogPosts.length)

/-- The state change an event makes by itself, before React re-renders: the observer
callback stores `isIntersecting`, due timers run their callbacks, the pointer
handlers store the hovered card. -/
def blogUpdate (s : BlogState) : BlogEvent → BlogState
  | .intersect b => { s with sectionIsVisible := b }
  | .elapse ms => blogElapse ms s
  | .mouseEnter postId => { s with hoveredCard := some postId }
  | .mouseLeave => { s with hoveredCard := none }

/-- What React does with the reveal effect after re-rendering `next`, the render
before having been `prev`: nothing when every dependency is the same value as
before, else the previous cleanup and then the effect. -/
def blogCommit (prev next : BlogState) : BlogState :=
  if blogDeps next = blogDeps prev then next else blogEffect (blogCleanup next)

/-! ## The replay of the reveal -/

/-- The time that passes during an event sequence of the contact section. -/
def contactElapsed : List ContactEvent → Nat
  | [] => 0
  | .elapse ms :: evs => ms + contactElapsed evs
  | _ :: evs => contactElapsed evs

/-- The observer never reports the contact section as out of view during the event sequence. -/
def contactStaysVisible (evs : List ContactEvent) : Bool :=
  evs.all fun e =>
    match e with
    | .intersect false => false
    | _ => true

/-- The two timers one run of the reveal effect of `ContactSection` schedules at clock
`now` when the next handle is `nextId`. -/
def contactCycleTimers (now nextId : Nat) : List (Timer ContactTarget) :=
  [{ id := nextId, due := now + 100, target := .headline },
   { id := nextId + 1, due := now + 300, target := .mainContent }]

/-- The reveal side of a state of `ContactSection` `t` ms after a true edge at clock
`now` that was given the handles from `nextId` on, the section having stayed in view
since (the form cells are left open). -/
def ContactRevealedAt (now nextId t : Nat) (s : ContactState) : Prop :=
  s.sectionIsVisible = true ∧
  s.headlineVisible = decide (100 ≤ t) ∧
  s.mainContentVisible = decide (300 ≤ t) ∧
  s.cleanup = some [nextId, nextId + 1] ∧
  s.timers =
    { now := now + t
      nextId := nextId + 2
      pending := (contactCycleTimers now nextId).filter (fun x => !decide (x.due ≤ now + t)) }

/-- The blog section after any history `before`, a false edge, `gap` ms out of view,
the next true edge, and then the events `evs`. -/
def blogReplayed (now nextId : Nat) (before : List BlogEvent) (gap : Nat)
    (evs : List BlogEvent) : BlogState :=
  blogRun (blogStep (blogStep (blogFalseEdge now nextId before) (.elapse gap))
    (.intersect true)) evs

/-- The blog section freshly mounted, after its first true edge and then the events `evs`. -/
def blogFirstReveal (now nextId : Nat) (evs : List BlogEvent) : BlogState :=
  blogRun (blogStep (blogMount now nextId) (.intersect true)) evs

/-- The contact section after any history `before`, a false edge, `gap` ms out of
view, the next true edge, and then the events `evs`. -/
def contactReplayed (now nextId : Nat) (before : List ContactEvent) (gap : Nat)
    (evs : List ContactEvent) : ContactState :=
  contactRun (contactStep (contactStep (contactFalseEdge now nextId before) (.elapse gap))
    (.intersect true)) evs

/-- The contact section freshly mounted, after its first true edge and then the events `evs`. -/
def contactFirstReveal (now nextId : Nat) (evs : List ContactEvent) : ContactState :=
  contactRun (contactStep (contactMount now nextId) (.intersect true)) evs

/-! ## The steps of `handleSubmit` before `await` -/

/-- The three setters `handleSubmit` calls first: `setIsSubmitting(true)`,
`setSubmitSuccess(false)`, `setSubmitError('')`. -/
def handleSubmitSetters (s : ContactState) : ContactState :=
  { s with isSubmitting := true, submitSuccess := false, submitError := .str "" }

/-- The call `fetch(backendApiUrl, ...)` that follows the setters: one request, built
from the field cells, is handed to the network. -/
def handleSubmitFetch (s : ContactState) : ContactState :=
  { s with inFlight := s.inFlight ++ [submitRequest s],
           fetchLog := s.fetchLog ++ [submitRequest s] }

/-! ## What happens while a request is in flight -/

/-- No event of the sequence is the observer reporting the section as out of view or
the completion of a suspended `handleSubmit`. -/
def undisturbed (evs : List ContactEvent) : Bool :=
  evs.all fun e =>
    match e with
    | .intersect false => false
    | .settle _ _ => false
    | _ => true

/-- The values of `fullName`, `email`, `message` a visitor has entered: the ones given
first, each replaced by what the visitor typed into that field since. -/
def enteredFields : String × String × String → List ContactEvent → String × String × String
  | f, [] => f
  | f, .changeFullName v :: evs => enteredFields (v, f.2.1, f.2.2) evs
  | f, .changeEmail v :: evs => enteredFields (f.1, v, f.2.2) evs
  | f, .changeMessage v :: evs => enteredFields (f.1, f.2.1, v) evs
  | f, _ :: evs => enteredFields f evs

/-- A visitor submits the form (request A), the section leaves the viewport and comes
back, and the visitor fills the form in and submits again (request B) while A is
still in flight: A is the suspended run 0, B the suspended run 1. -/
def twoInFlight : List ContactEvent :=
  resubmitAfterScroll ++ [.submit]

/-- A non-2xx answer whose JSON body is `{"message":"Invalid email"}`. -/
def invalidEmailResponse : FetchOutcome :=
  .response 400 (some (.obj [("message", .str "Invalid email")]))

/-! ## Theorems: `handleSubmit` -/

/-- C1: whatever state `handleSubmit` starts in, whatever happens while it is
suspended at `await`, and however `fetch` settles (rejection, a 2xx response, a
non-2xx response with a JSON body or with a body that does not parse),
`isSubmitting` is `false` when `handleSubmit` has finished. -/
theorem handleSubmit_clears_isSubmitting (s : ContactState) (evs : List ContactEvent)
    (o : FetchOutcome) :
    (handleSubmitResume o (contactRun (handleSubmitBegin s) evs)).isSubmitting = false := by
  simp [handleSubmitResume, handleSubmitFinally]

/-- C2, as the spec states it, fails: on a non-2xx response whose body does not
parse as JSON, `submitError` is the connectivity message of the `catch` block, which
differs from the fallback `'Failed to send message. Please try again.'`. -/
theorem unparsable_error_body_gets_connectivity_message :
    (handleSubmitResume (.response 500 none)
        (handleSubmitBegin (contactMount 0 1))).submitError = unexpectedErrorMessage ∧
      unexpectedErrorMessage ≠ failedToSendMessage := by
  refine ⟨rfl, ?_⟩
  simp [unexpectedErrorMessage, failedToSendMessage]

/-- C2, amended: on a non-2xx response, (1) when the body parses to a value whose
`message` is truthy, `submitError` is that message; (2) when it parses to a non-null
value whose `message` is absent (`undefined`) or otherwise falsy, `submitError` is the
fallback `'Failed to send message. Please try again.'`; (3) when the body does not
parse, `submitError` is the connectivity message set by the `catch` block. -/
theorem handleSubmit_error_response_message (s : ContactState) (status : Nat)
    (hstatus : responseOk status = false) :
    (∀ errorData m, getMessage errorData = some m → m.toBoolean = true →
      (handleSubmitResume (.response status (some errorData)) s).submitError = m) ∧
    (∀ errorData m, getMessage errorData = some m → m.toBoolean = false →
      (handleSubmitResume (.response status (some errorData)) s).submitError
        = failedToSendMessage) ∧
    (handleSubmitResume (.response status none) s).submitError = unexpectedErrorMessage := by
  refine ⟨?_, ?_, ?_⟩
  · intro errorData m hm ht
    simp [handleSubmitResume, handleSubmitFinally, handleSubmitTry, hstatus, hm, jsOr, ht]
  · intro errorData m hm ht
    simp [handleSubmitResume, handleSubmitFinally, handleSubmitTry, hstatus, hm, jsOr, ht]
  · simp [handleSubmitResume, handleSubmitFinally, handleSubmitTry, hstatus, handleSubmitCatch]

theorem handleSubmit_error_response_message_witness :
    (handleSubmitResume
        (.response 400 (some (.obj [("message", .str "Invalid email")])))
        (handleSubmitBegin (contactMount 0 1))).submitError = .str "Invalid email" ∧
    (handleSubmitResume (.response 500 (some (.obj [("detail", .str "Server error")])))
        (handleSubmitBegin (contactMount 0 1))).submitError = failedToSendMessage ∧
    (handleSubmitResume (.response 502 none)
        (handleSubmitBegin (contactMount 0 1))).submitError = unexpectedErrorMessage :=
  ⟨(handleSubmit_error_response_message (handleSubmitBegin (contactMount 0 1)) 400 rfl).1
      _ _ rfl rfl,
   (handleSubmit_error_response_message (handleSubmitBegin (contactMount 0 1)) 500 rfl).2.1
      _ _ rfl rfl,
   (handleSubmit_error_response_message (handleSubmitBegin (contactMount 0 1)) 502 rfl).2.2⟩

/-! ## Theorems: the submit guard -/

/-- Firing a list of reveal timers only raises the two reveal flags. -/
theorem contact_fire_foldl (l : List (Timer ContactTarget)) (st : ContactState) :
    l.foldl (fun st t => st.fire t.target) st =
      { st with
        headlineVisible := st.headlineVisible || l.any (fun t => t.target == .headline),
        mainContentVisible :=
          st.mainContentVisible || l.any (fun t => t.target == .mainContent) } := by
  induction l generalizing st with
  | nil => simp
  | cons t l ih =>
    rw [List.foldl_cons, ih]
    have h1 : (ContactTarget.headline == ContactTarget.mainContent) = false := by decide
    have h2 : (ContactTarget.mainContent == ContactTarget.headline) = false := by decide
    cases ht : t.target <;> simp [ContactState.fire, ht, Bool.or_assoc, h1, h2]

/-- Resuming `handleSubmit` leaves the suspended requests and the request log alone and
ends with `isSubmitting` false. -/
theorem handleSubmitResume_frame (o : FetchOutcome) (s : ContactState) :
    (handleSubmitResume o s).inFlight = s.inFlight ∧
      (handleSubmitResume o s).fetchLog = s.fetchLog ∧
      (handleSubmitResume o s).isSubmitting = false := by
  cases o with
  | rejected => simp [handleSubmitResume, handleSubmitFinally, handleSubmitTry, handleSubmitCatch]
  | response status json =>
    by_cases hok : responseOk status = true
    · simp [handleSubmitResume, handleSubmitFinally, handleSubmitTry, hok]
    · cases json with
      | none =>
        simp [handleSubmitResume, handleSubmitFinally, handleSubmitTry, hok, handleSubmitCatch]
      | some d =>
        cases hm : getMessage d <;>
          simp [handleSubmitResume, handleSubmitFinally, handleSubmitTry, hok, hm,
            handleSubmitCatch]

theorem submitGuarded_step (s : ContactState) (e : ContactEvent) (h : SubmitGuarded s)
    (he : neverHiddenInFlight s [e] = true) : SubmitGuarded (contactStep s e) := by
  obtain ⟨hlen, hiff⟩ := h
  cases e with
  | intersect b =>
    cases b with
    | true =>
      by_cases hv : s.sectionIsVisible = true
      · simpa [contactStep, contactSetIsVisible, hv, SubmitGuarded] using ⟨hlen, hiff⟩
      · cases hc : s.cleanup <;>
          simpa [contactStep, contactSetIsVisible, hv, SubmitGuarded, contactEffect,
            contactCleanup, hc] using ⟨hlen, hiff⟩
    | false =>
      by_cases hv : s.sectionIsVisible = true
      · have hidle : s.inFlight = [] := by
          simpa [neverHiddenInFlight, hv, List.isEmpty_iff] using he
        cases hc : s.cleanup <;>
          simp [contactStep, contactSetIsVisible, hv, SubmitGuarded, contactEffect,
            contactCleanup, hc, hidle]
      · simpa [contactStep, contactSetIsVisible, hv, SubmitGuarded] using ⟨hlen, hiff⟩
  | elapse ms =>
    simpa [contactStep, contactElapse, contact_fire_foldl, SubmitGuarded] using ⟨hlen, hiff⟩
  | changeFullName v => exact ⟨hlen, hiff⟩
  | changeEmail v => exact ⟨hlen, hiff⟩
  | changeMessage v => exact ⟨hlen, hiff⟩
  | submit =>
    by_cases hsub : s.isSubmitting = true
    · have hsame : contactStep s .submit = s := by simp [contactStep, contactSubmit, hsub]
      rw [hsame]
      exact ⟨hlen, hiff⟩
    · have hidle : s.inFlight = [] := by
        by_contra hne
        exact hsub (hiff.2 hne)
      simp [contactStep, contactSubmit, hsub, SubmitGuarded, handleSubmitBegin, hidle]
  | settle k o =>
    by_cases hk : k < s.inFlight.length
    · have hk0 : k = 0 := by omega
      have hone : s.inFlight.length = 1 := by omega
      obtain ⟨r, hr⟩ := List.length_eq_one.mp hone
      obtain ⟨h1, -, h3⟩ :=
        handleSubmitResume_frame o { s with inFlight := s.inFlight.eraseIdx k }
      have hstep : contactStep s (.settle k o) =
          handleSubmitResume o { s with inFlight := s.inFlight.eraseIdx k } := by
        simp [contactStep, contactSettle, hk]
      have herase : s.inFlight.eraseIdx k = [] := by simp [hk0, hr]
      rw [hstep]
      refine ⟨?_, ?_⟩
      · rw [h1]
        simp [herase]
      · rw [h1, h3]
        simp [herase]
    · simpa [contactStep, contactSettle, hk, SubmitGuarded] using ⟨hlen, hiff⟩

theorem submitGuarded_run (evs : List ContactEvent) (s : ContactState) (h : SubmitGuarded s)
    (he : neverHiddenInFlight s evs = true) : SubmitGuarded (contactRun s evs) := by
  induction evs generalizing s with
  | nil => exact h
  | cons e evs ih =>
    have h1 : neverHiddenInFlight s [e] = true ∧
        neverHiddenInFlight (contactStep s e) evs = true := by
      simpa [neverHiddenInFlight] using he
    exact ih (contactStep s e) (submitGuarded_step s e h h1.1) h1.2

theorem submitGuarded_mount (now nextId : Nat) : SubmitGuarded (contactMount now nextId) := by
  simp [SubmitGuarded, contactMount, contactEffect, contactInitial]

/-- C3, as the spec states it, fails: after `resubmitAfterScroll` one request is in
flight, yet `isSubmitting` is `false` (the reveal effect reset it when the section
left the viewport), so the submit control is enabled and a submit trigger issues a
second network call while the first is still in flight. -/
theorem second_call_while_first_in_flight :
    (contactRun (contactMount 0 1) resubmitAfterScroll).inFlight.length = 1 ∧
    (contactRun (contactMount 0 1) resubmitAfterScroll).isSubmitting = false ∧
    (contactStep (contactRun (contactMount 0 1) resubmitAfterScroll) .submit).inFlight.length
      = 2 ∧
    (contactStep (contactRun (contactMount 0 1) resubmitAfterScroll) .submit).fetchLog.length
      = 2 := by
  refine ⟨?_, ?_, ?_, ?_⟩ <;> rfl

/-- C3, amended: on every event sequence that does not move the section out of view
while a request is in flight, whenever a request is in flight `isSubmitting` is `true`
(the submit control is disabled), that request is the only one in flight, a submit
trigger changes nothing, and two submit triggers in a row issue no network call. -/
theorem submit_disabled_while_in_flight (now nextId : Nat) (evs : List ContactEvent)
    (hvis : neverHiddenInFlight (contactMount now nextId) evs = true)
    (hflight : (contactRun (contactMount now nextId) evs).inFlight ≠ []) :
    (contactRun (contactMount now nextId) evs).isSubmitting = true ∧
    (contactRun (contactMount now nextId) evs).inFlight.length = 1 ∧
    contactStep (contactRun (contactMount now nextId) evs) .submit
      = contactRun (contactMount now nextId) evs ∧
    (contactRun (contactRun (contactMount now nextId) evs) [.submit, .submit]).fetchLog
      = (contactRun (contactMount now nextId) evs).fetchLog := by
  obtain ⟨hlen, hiff⟩ := submitGuarded_run evs _ (submitGuarded_mount now nextId) hvis
  have hsub := hiff.2 hflight
  have hpos : 0 < (contactRun (contactMount now nextId) evs).inFlight.length :=
    List.length_pos.mpr hflight
  have hsame : contactStep (contactRun (contactMount now nextId) evs) .submit
      = contactRun (contactMount now nextId) evs := by
    simp [contactStep, contactSubmit, hsub]
  refine ⟨hsub, by omega, hsame, ?_⟩
  show (contactStep (contactStep (contactRun (contactMount now nextId) evs) .submit)
    .submit).fetchLog = _
  rw [hsame, hsame]

theorem submit_disabled_while_in_flight_witness :
    (contactRun (contactMount 0 1)
        [.intersect true, .changeFullName "Asha", .changeEmail "asha@example.com",
         .changeMessage "Hello", .submit, .elapse 500]).isSubmitting = true ∧
    (contactRun (contactMount 0 1)
        [.intersect true, .changeFullName "Asha", .changeEmail "asha@example.com",
         .changeMessage "Hello", .submit, .elapse 500]).inFlight.length = 1 ∧
    contactStep (contactRun (contactMount 0 1)
        [.intersect true, .changeFullName "Asha", .changeEmail "asha@example.com",
         .changeMessage "Hello", .submit, .elapse 500]) .submit
      = contactRun (contactMount 0 1)
        [.intersect true, .changeFullName "Asha", .changeEmail "asha@example.com",
         .changeMessage "Hello", .submit, .elapse 500] ∧
    (contactRun (contactRun (contactMount 0 1)
        [.intersect true, .changeFullName "Asha", .changeEmail "asha@example.com",
         .changeMessage "Hello", .submit, .elapse 500]) [.submit, .submit]).fetchLog
      = (contactRun (contactMount 0 1)
        [.intersect true, .changeFullName "Asha", .changeEmail "asha@example.com",
         .changeMessage "Hello", .submit, .elapse 500]).fetchLog :=
  submit_disabled_while_in_flight 0 1
    [.intersect true, .changeFullName "Asha", .changeEmail "asha@example.com",
     .changeMessage "Hello", .submit, .elapse 500]
    rfl (by simp [contactRun, contactStep, contactSetIsVisible, contactMount, contactEffect,
      contactInitial, contactCleanup, contactSubmit, handleSubmitBegin, contactElapse,
      contact_fire_foldl])

/-! ## Theorems: which contact section the page mounts -/

/-- C4, evaluated on the code: the `<ContactSection />` of `App` is the default export
of `ContentSection.jsx`, whose form has no `onSubmit` handler and whose module calls
`fetch` nowhere, so it is not a component whose form runs `handleSubmit`.  The
component that does, with the same export name, its form wired to `handleSubmit` and
its `fetch` to the backend URL, sits in the sibling module `ContectSection.jsx`, which
`App` does not import: the only contact module among the imports of `App` is the
static one. -/
theorem app_mounts_static_contact_section :
    appMounted "ContactSection" = some contentSectionModule ∧
    contentSectionModule.formOnSubmit = none ∧
    contentSectionModule.fetchCalls = [] ∧
    (¬ ∃ m, appMounted "ContactSection" = some m ∧ m.formOnSubmit = some .handleSubmit) ∧
    contectSectionModule.defaultExport = contentSectionModule.defaultExport ∧
    contectSectionModule.formOnSubmit = some .handleSubmit ∧
    contectSectionModule.fetchCalls = ["https://work2-vn12.onrender.com/api/contact/submit/"] ∧
    (appImports.map Prod.snd).filterMap resolveModule = [contentSectionModule] := by
  decide

/-! ## Theorems: the outcomes of `handleSubmit` -/

/-- While no suspended `handleSubmit` completes, the feedback cells stay as
`handleSubmit` set them before `fetch`: no error message, no success. -/
theorem feedback_clear_step (s : ContactState) (e : ContactEvent) (he : noSettle [e] = true)
    (h : s.submitError = .str "" ∧ s.submitSuccess = false) :
    (contactStep s e).submitError = .str "" ∧ (contactStep s e).submitSuccess = false := by
  cases e with
  | intersect b =>
    by_cases hv : b = s.sectionIsVisible
    · simpa [contactStep, contactSetIsVisible, hv] using h
    · cases b <;> cases hc : s.cleanup <;>
        simp_all [contactStep, contactSetIsVisible, contactEffect, contactCleanup]
  | elapse ms => simpa [contactStep, contactElapse, contact_fire_foldl] using h
  | changeFullName v => exact h
  | changeEmail v => exact h
  | changeMessage v => exact h
  | submit =>
    by_cases hsub : s.isSubmitting = true
    · simpa [contactStep, contactSubmit, hsub] using h
    · simp [contactStep, contactSubmit, hsub, handleSubmitBegin]
  | settle k o => simp [noSettle] at he

theorem feedback_clear_run (evs : List ContactEvent) (s : ContactState)
    (he : noSettle evs = true) (h : s.submitError = .str "" ∧ s.submitSuccess = false) :
    (contactRun s evs).submitError = .str "" ∧ (contactRun s evs).submitSuccess = false := by
  induction evs generalizing s with
  | nil => exact h
  | cons e evs ih =>
    have h1 : noSettle [e] = true ∧ noSettle evs = true := by
      simpa [noSettle] using he
    exact ih (contactStep s e) h1.2 (feedback_clear_step s e h1.1 h)

/-- While the section stays in view and no suspended `handleSubmit` completes, the
three fields hold what the visitor entered. -/
theorem fields_entered_run (evs : List ContactEvent) (s : ContactState)
    (h : undisturbed evs = true) :
    ((contactRun s evs).fullName, (contactRun s evs).email, (contactRun s evs).message)
      = enteredFields (s.fullName, s.email, s.message) evs := by
  induction evs generalizing s with
  | nil => rfl
  | cons e evs ih =>
    have hrest : undisturbed evs = true := by
      simp only [undisturbed, List.all_cons, Bool.and_eq_true] at h
      exact h.2
    have hrun : contactRun s (e :: evs) = contactRun (contactStep s e) evs := rfl
    rw [hrun, ih (contactStep s e) hrest]
    cases e with
    | intersect b =>
      cases b with
      | true =>
        by_cases hv : s.sectionIsVisible = true
        · simp [contactStep, contactSetIsVisible, hv, enteredFields]
        · cases hc : s.cleanup <;>
            simp [contactStep, contactSetIsVisible, hv, contactEffect, contactCleanup, hc,
              enteredFields]
      | false => simp [undisturbed] at h
    | elapse ms => simp [contactStep, contactElapse, contact_fire_foldl, enteredFields]
    | changeFullName v => simp [contactStep, enteredFields]
    | changeEmail v => simp [contactStep, enteredFields]
    | changeMessage v => simp [contactStep, enteredFields]
    | submit =>
      by_cases hsub : s.isSubmitting = true
      · simp [contactStep, contactSubmit, hsub, enteredFields]
      · simp [contactStep, contactSubmit, hsub, handleSubmitBegin, enteredFields]
    | settle k o => simp [undisturbed] at h

/-- C5, as the spec states it, fails: with two requests in flight (`twoInFlight`), A
is rejected and then B receives a 200.  When B's `handleSubmit` has finished,
`submitSuccess` is `true`, the fields are empty and `isSubmitting` is `false`, but
`submitError` is the connectivity message A's run left behind, not empty. -/
theorem success_keeps_error_of_other_run :
    (contactRun (contactMount 0 1) twoInFlight).inFlight.length = 2 ∧
    (contactRun (contactMount 0 1)
      (twoInFlight ++ [.settle 0 .rejected, .settle 0 (.response 200 none)])).submitSuccess
      = true ∧
    (contactRun (contactMount 0 1)
      (twoInFlight ++ [.settle 0 .rejected, .settle 0 (.response 200 none)])).submitError
      = .str "An unexpected error occurred. Please check your network connection." ∧
    (contactRun (contactMount 0 1)
      (twoInFlight ++ [.settle 0 .rejected, .settle 0 (.response 200 none)])).inFlight
      = [] := by
  refine ⟨?_, ?_, ?_, ?_⟩ <;> rfl

/-- C5, amended: `handleSubmit` starts in any state `s`, any events `evs` happen while
it is suspended, and `fetch` resolves to a 2xx response.  When `handleSubmit` has
finished, `submitSuccess` is `true`, the three fields are empty and `isSubmitting` is
`false`; and `submitError` is empty, as `handleSubmit` set it before `fetch`, provided
no other run of `handleSubmit` completed in the meantime. -/
theorem handleSubmit_success (s : ContactState) (evs : List ContactEvent)
    (status : Nat) (json : Option JsVal) (hok : responseOk status = true) :
    (handleSubmitResume (.response status json)
        (contactRun (handleSubmitBegin s) evs)).submitSuccess = true ∧
    (handleSubmitResume (.response status json)
        (contactRun (handleSubmitBegin s) evs)).fullName = "" ∧
    (handleSubmitResume (.response status json)
        (contactRun (handleSubmitBegin s) evs)).email = "" ∧
    (handleSubmitResume (.response status json)
        (contactRun (handleSubmitBegin s) evs)).message = "" ∧
    (handleSubmitResume (.response status json)
        (contactRun (handleSubmitBegin s) evs)).isSubmitting = false ∧
    (noSettle evs = true →
      (handleSubmitResume (.response status json)
        (contactRun (handleSubmitBegin s) evs)).submitError = .str "") := by
  refine ⟨?_, ?_, ?_, ?_, ?_, ?_⟩
  · simp [handleSubmitResume, handleSubmitFinally, handleSubmitTry, hok]
  · simp [handleSubmitResume, handleSubmitFinally, handleSubmitTry, hok]
  · simp [handleSubmitResume, handleSubmitFinally, handleSubmitTry, hok]
  · simp [handleSubmitResume, handleSubmitFinally, handleSubmitTry, hok]
  · simp [handleSubmitResume, handleSubmitFinally, handleSubmitTry, hok]
  · intro hevs
    have h := feedback_clear_run evs (handleSubmitBegin s) hevs ⟨rfl, rfl⟩
    simp [handleSubmitResume, handleSubmitFinally, handleSubmitTry, hok, h.1]

theorem handleSubmit_success_witness :
    (handleSubmitResume (.response 200 none)
        (contactRun (handleSubmitBegin filledForm) whileWaiting)).submitSuccess = true ∧
    (handleSubmitResume (.response 200 none)
        (contactRun (handleSubmitBegin filledForm) whileWaiting)).fullName = "" ∧
    (handleSubmitResume (.response 200 none)
        (contactRun (handleSubmitBegin filledForm) whileWaiting)).email = "" ∧
    (handleSubmitResume (.response 200 none)
        (contactRun (handleSubmitBegin filledForm) whileWaiting)).message = "" ∧
    (handleSubmitResume (.response 200 none)
        (contactRun (handleSubmitBegin filledForm) whileWaiting)).isSubmitting = false ∧
    (handleSubmitResume (.response 200 none)
        (contactRun (handleSubmitBegin filledForm) whileWaiting)).submitError = .str "" :=
  ⟨(handleSubmit_success filledForm whileWaiting 200 none (by decide)).1,
   (handleSubmit_success filledForm whileWaiting 200 none (by decide)).2.1,
   (handleSubmit_success filledForm whileWaiting 200 none (by decide)).2.2.1,
   (handleSubmit_success filledForm whileWaiting 200 none (by decide)).2.2.2.1,
   (handleSubmit_success filledForm whileWaiting 200 none (by decide)).2.2.2.2.1,
   (handleSubmit_success filledForm whileWaiting 200 none (by decide)).2.2.2.2.2 (by decide)⟩

/-- C6, as the spec states it, fails twice.  (1) One submission from `filledForm`:
the section leaves the viewport while the request is in flight, then the answer
`{"message":"Invalid email"}` with status 400 arrives; `submitError` is the message,
but the three fields are empty, not what the visitor entered.  (2) With two requests
in flight (`twoInFlight`), A receives a 200 and then B the 400: when B's
`handleSubmit` has finished, `submitSuccess` is `true`. -/
theorem error_response_fields_lost_and_success_kept :
    (filledForm.fullName = "Asha" ∧ filledForm.email = "asha@example.com" ∧
      filledForm.message = "Hello") ∧
    ((contactRun filledForm [.submit, .intersect false, .settle 0 invalidEmailResponse]).submitError
        = .str "Invalid email" ∧
      (contactRun filledForm [.submit, .intersect false, .settle 0 invalidEmailResponse]).fullName
        = "" ∧
      (contactRun filledForm [.submit, .intersect false, .settle 0 invalidEmailResponse]).email
        = "" ∧
      (contactRun filledForm [.submit, .intersect false, .settle 0 invalidEmailResponse]).message
        = "") ∧
    ((contactRun (contactMount 0 1)
        (twoInFlight ++ [.settle 0 (.response 200 none), .settle 0 invalidEmailResponse])).submitError
        = .str "Invalid email" ∧
      (contactRun (contactMount 0 1)
        (twoInFlight ++ [.settle 0 (.response 200 none), .settle 0 invalidEmailResponse])).submitSuccess
        = true) := by
  refine ⟨⟨?_, ?_, ?_⟩, ⟨?_, ?_, ?_, ?_⟩, ⟨?_, ?_⟩⟩ <;> rfl

/-- C6, amended: `handleSubmit` starts in any state `s`, any events `evs` happen while
it is suspended, and `fetch` resolves to a non-2xx response whose JSON body has the
non-empty string `m` as `message`.  When `handleSubmit` has finished, `submitError` is
`m` and `isSubmitting` is `false`; `handleSubmit` itself changes none of the three
fields, before `fetch` or after; `submitSuccess` is `false` provided no other run of
`handleSubmit` completed in the meantime; and the three fields are what the visitor
entered (in `s`, or by typing since) provided that in the meantime the section was
not reported out of view and no other run of `handleSubmit` completed. -/
theorem handleSubmit_error_message (s : ContactState) (evs : List ContactEvent)
    (status : Nat) (errorData : JsVal) (m : String)
    (hstatus : responseOk status = false) (hm : getMessage errorData = some (.str m))
    (hne : m ≠ "") :
    (handleSubmitResume (.response status (some errorData))
        (contactRun (handleSubmitBegin s) evs)).submitError = .str m ∧
    (handleSubmitResume (.response status (some errorData))
        (contactRun (handleSubmitBegin s) evs)).isSubmitting = false ∧
    (handleSubmitResume (.response status (some errorData))
        (contactRun (handleSubmitBegin s) evs)).fullName
      = (contactRun (handleSubmitBegin s) evs).fullName ∧
    (handleSubmitResume (.response status (some errorData))
        (contactRun (handleSubmitBegin s) evs)).email
      = (contactRun (handleSubmitBegin s) evs).email ∧
    (handleSubmitResume (.response status (some errorData))
        (contactRun (handleSubmitBegin s) evs)).message
      = (contactRun (handleSubmitBegin s) evs).message ∧
    (handleSubmitBegin s).fullName = s.fullName ∧
    (handleSubmitBegin s).email = s.email ∧
    (handleSubmitBegin s).message = s.message ∧
    (noSettle evs = true →
      (handleSubmitResume (.response status (some errorData))
        (contactRun (handleSubmitBegin s) evs)).submitSuccess = false) ∧
    (undisturbed evs = true →
      ((handleSubmitResume (.response status (some errorData))
          (contactRun (handleSubmitBegin s) evs)).fullName,
       (handleSubmitResume (.response status (some errorData))
          (contactRun (handleSubmitBegin s) evs)).email,
       (handleSubmitResume (.response status (some errorData))
          (contactRun (handleSubmitBegin s) evs)).message)
        = enteredFields (s.fullName, s.email, s.message) evs) := by
  have ht : (JsVal.str m).toBoolean = true := by simpa [JsVal.toBoolean] using hne
  have hframe :
      (handleSubmitResume (.response status (some errorData))
          (contactRun (handleSubmitBegin s) evs)).fullName
      = (contactRun (handleSubmitBegin s) evs).fullName ∧
      (handleSubmitResume (.response status (some errorData))
          (contactRun (handleSubmitBegin s) evs)).email
      = (contactRun (handleSubmitBegin s) evs).email ∧
      (handleSubmitResume (.response status (some errorData))
          (contactRun (handleSubmitBegin s) evs)).message
      = (contactRun (handleSubmitBegin s) evs).message := by
    refine ⟨?_, ?_, ?_⟩ <;>
      simp [handleSubmitResume, handleSubmitFinally, handleSubmitTry, hstatus, hm]
  refine ⟨?_, ?_, hframe.1, hframe.2.1, hframe.2.2, rfl, rfl, rfl, ?_, ?_⟩
  · simp [handleSubmitResume, handleSubmitFinally, handleSubmitTry, hstatus, hm, jsOr, ht]
  · simp [handleSubmitResume, handleSubmitFinally, handleSubmitTry, hstatus, hm]
  · intro hevs
    have h := feedback_clear_run evs (handleSubmitBegin s) hevs ⟨rfl, rfl⟩
    simp [handleSubmitResume, handleSubmitFinally, handleSubmitTry, hstatus, hm, h.2]
  · intro hevs
    rw [hframe.1, hframe.2.1, hframe.2.2]
    exact fields_entered_run evs (handleSubmitBegin s) hevs

theorem handleSubmit_error_message_witness :
    (handleSubmitResume invalidEmailResponse
        (contactRun (handleSubmitBegin filledForm) whileWaiting)).submitError = .str "Invalid email" ∧
    (handleSubmitResume invalidEmailResponse
        (contactRun (handleSubmitBegin filledForm) whileWaiting)).isSubmitting = false ∧
    (handleSubmitResume invalidEmailResponse
        (contactRun (handleSubmitBegin filledForm) whileWaiting)).submitSuccess = false ∧
    ((handleSubmitResume invalidEmailResponse
        (contactRun (handleSubmitBegin filledForm) whileWaiting)).fullName,
     (handleSubmitResume invalidEmailResponse
        (contactRun (handleSubmitBegin filledForm) whileWaiting)).email,
     (handleSubmitResume invalidEmailResponse
        (contactRun (handleSubmitBegin filledForm) whileWaiting)).message)
      = ("Asha", "asha@example.com", "Hello there") :=
  ⟨(handleSubmit_error_message filledForm whileWaiting 400
      (.obj [("message", .str "Invalid email")]) "Invalid email" (by decide) rfl (by decide)).1,
   (handleSubmit_error_message filledForm whileWaiting 400
      (.obj [("message", .str "Invalid email")]) "Invalid email" (by decide) rfl
      (by decide)).2.1,
   (handleSubmit_error_message filledForm whileWaiting 400
      (.obj [("message", .str "Invalid email")]) "Invalid email" (by decide) rfl
      (by decide)).2.2.2.2.2.2.2.2.1 (by decide),
   (handleSubmit_error_message filledForm whileWaiting 400
      (.obj [("message", .str "Invalid email")]) "Invalid email" (by decide) rfl
      (by decide)).2.2.2.2.2.2.2.2.2 (by decide)⟩

/-- C7, as the spec states it, fails twice.  (1) One submission from `filledForm`:
the section leaves the viewport while the request is in flight, then `fetch`
rejects; `submitError` is the connectivity message, but the three fields are empty,
not what the visitor entered.  (2) With two requests in flight (`twoInFlight`), A
receives a 200 and then B's `fetch` rejects: when B's `handleSubmit` has finished,
`submitSuccess` is `true`. -/
theorem rejection_fields_lost_and_success_kept :
    (filledForm.fullName = "Asha" ∧ filledForm.email = "asha@example.com" ∧
      filledForm.message = "Hello") ∧
    ((contactRun filledForm [.submit, .intersect false, .settle 0 .rejected]).submitError
        = .str "An unexpected error occurred. Please check your network connection." ∧
      (contactRun filledForm [.submit, .intersect false, .settle 0 .rejected]).fullName = "" ∧
      (contactRun filledForm [.submit, .intersect false, .settle 0 .rejected]).email = "" ∧
      (contactRun filledForm [.submit, .intersect false, .settle 0 .rejected]).message = "") ∧
    ((contactRun (contactMount 0 1)
        (twoInFlight ++ [.settle 0 (.response 200 none), .settle 0 .rejected])).submitError
        = .str "An unexpected error occurred. Please check your network connection." ∧
      (contactRun (contactMount 0 1)
        (twoInFlight ++ [.settle 0 (.response 200 none), .settle 0 .rejected])).submitSuccess
        = true) := by
  refine ⟨⟨?_, ?_, ?_⟩, ⟨?_, ?_, ?_, ?_⟩, ⟨?_, ?_⟩⟩ <;> rfl

/-- C7, amended: `handleSubmit` starts in any state `s`, any events `evs` happen while
it is suspended, and `fetch` rejects.  When `handleSubmit` has finished, `submitError`
is the connectivity message and `isSubmitting` is `false`; `handleSubmit` itself
changes none of the three fields, before `fetch` or after; `submitSuccess` is `false`
provided no other run of `handleSubmit` completed in the meantime; and the three
fields are what the visitor entered (in `s`, or by typing since) provided that in the
meantime the section was not reported out of view and no other run of `handleSubmit`
completed. -/
theorem handleSubmit_rejected (s : ContactState) (evs : List ContactEvent) :
    (handleSubmitResume .rejected
        (contactRun (handleSubmitBegin s) evs)).submitError
      = .str "An unexpected error occurred. Please check your network connection." ∧
    (handleSubmitResume .rejected
        (contactRun (handleSubmitBegin s) evs)).isSubmitting = false ∧
    (handleSubmitResume .rejected
        (contactRun (handleSubmitBegin s) evs)).fullName
      = (contactRun (handleSubmitBegin s) evs).fullName ∧
    (handleSubmitResume .rejected
        (contactRun (handleSubmitBegin s) evs)).email
      = (contactRun (handleSubmitBegin s) evs).email ∧
    (handleSubmitResume .rejected
        (contactRun (handleSubmitBegin s) evs)).message
      = (contactRun (handleSubmitBegin s) evs).message ∧
    (handleSubmitBegin s).fullName = s.fullName ∧
    (handleSubmitBegin s).email = s.email ∧
    (handleSubmitBegin s).message = s.message ∧
    (noSettle evs = true →
      (handleSubmitResume .rejected
        (contactRun (handleSubmitBegin s) evs)).submitSuccess = false) ∧
    (undisturbed evs = true →
      ((handleSubmitResume .rejected
          (contactRun (handleSubmitBegin s) evs)).fullName,
       (handleSubmitResume .rejected
          (contactRun (handleSubmitBegin s) evs)).email,
       (handleSubmitResume .rejected
          (contactRun (handleSubmitBegin s) evs)).message)
        = enteredFields (s.fullName, s.email, s.message) evs) := by
  have hframe :
      (handleSubmitResume .rejected
          (contactRun (handleSubmitBegin s) evs)).fullName
      = (contactRun (handleSubmitBegin s) evs).fullName ∧
      (handleSubmitResume .rejected
          (contactRun (handleSubmitBegin s) evs)).email
      = (contactRun (handleSubmitBegin s) evs).email ∧
      (handleSubmitResume .rejected
          (contactRun (handleSubmitBegin s) evs)).message
      = (contactRun (handleSubmitBegin s) evs).message := by
    refine ⟨?_, ?_, ?_⟩ <;>
      simp [handleSubmitResume, handleSubmitFinally, handleSubmitTry, handleSubmitCatch]
  refine ⟨?_, ?_, hframe.1, hframe.2.1, hframe.2.2, rfl, rfl, rfl, ?_, ?_⟩
  · simp [handleSubmitResume, handleSubmitFinally, handleSubmitTry, handleSubmitCatch,
      unexpectedErrorMessage]
  · simp [handleSubmitResume, handleSubmitFinally, handleSubmitTry, handleSubmitCatch]
  · intro hevs
    have h := feedback_clear_run evs (handleSubmitBegin s) hevs ⟨rfl, rfl⟩
    simp [handleSubmitResume, handleSubmitFinally, handleSubmitTry, handleSubmitCatch, h.2]
  · intro hevs
    rw [hframe.1, hframe.2.1, hframe.2.2]
    exact fields_entered_run evs (handleSubmitBegin s) hevs

theorem handleSubmit_rejected_witness :
    (handleSubmitResume .rejected
        (contactRun (handleSubmitBegin filledForm) whileWaiting)).submitError
      = .str "An unexpected error occurred. Please check your network connection." ∧
    (handleSubmitResume .rejected
        (contactRun (handleSubmitBegin filledForm) whileWaiting)).isSubmitting = false ∧
    (handleSubmitResume .rejected
        (contactRun (handleSubmitBegin filledForm) whileWaiting)).submitSuccess = false ∧
    ((handleSubmitResume .rejected
        (contactRun (handleSubmitBegin filledForm) whileWaiting)).fullName,
     (handleSubmitResume .rejected
        (contactRun (handleSubmitBegin filledForm) whileWaiting)).email,
     (handleSubmitResume .rejected
        (contactRun (handleSubmitBegin filledForm) whileWaiting)).message)
      = ("Asha", "asha@example.com", "Hello there") :=
  ⟨(handleSubmit_rejected filledForm whileWaiting).1,
   (handleSubmit_rejected filledForm whileWaiting).2.1,
   (handleSubmit_rejected filledForm whileWaiting).2.2.2.2.2.2.2.2.1 (by decide),
   (handleSubmit_rejected filledForm whileWaiting).2.2.2.2.2.2.2.2.2 (by decide)⟩

/-! ## Theorems: timers -/

theorem clearAll_now {τ : Type} (hs : List Nat) (q : TimerQueue τ) :
    (q.clearAll hs).now = q.now ∧ (q.clearAll hs).nextId = q.nextId := by
  induction hs generalizing q with
  | nil => exact ⟨rfl, rfl⟩
  | cons h hs ih =>
    have := ih (q.clearTimeout h)
    simpa [TimerQueue.clearAll, TimerQueue.clearTimeout] using this

/-- After the cleanup exactly the timers whose handle it holds are gone. -/
theorem mem_clearAll {τ : Type} (hs : List Nat) (q : TimerQueue τ) (t : Timer τ) :
    t ∈ (q.clearAll hs).pending ↔ t ∈ q.pending ∧ t.id ∉ hs := by
  induction hs generalizing q with
  | nil => simp [TimerQueue.clearAll]
  | cons h hs ih =>
    have := ih (q.clearTimeout h)
    simp only [TimerQueue.clearAll, List.foldl_cons] at this ⊢
    rw [this]
    simp [TimerQueue.clearTimeout, and_assoc]

theorem mem_dueWithin {τ : Type} (q : TimerQueue τ) (ms : Nat) (t : Timer τ) :
    t ∈ q.dueWithin ms ↔ t ∈ q.pending ∧ t.due ≤ q.now + ms := by
  simp [TimerQueue.dueWithin, List.mem_insertionSort]

theorem blogEffect_visible (s : BlogState) (h : s.sectionIsVisible = true) :
    blogEffect s =
      { s with
        cleanup := some [s.timers.nextId, s.timers.nextId + 1, s.timers.nextId + 2,
          s.timers.nextId + 3]
        timers :=
          { now := s.timers.now
            nextId := s.timers.nextId + 4
            pending := s.timers.pending ++
              [{ id := s.timers.nextId, due := s.timers.now + 100, target := .headline },
               { id := s.timers.nextId + 1, due := s.timers.now + 300, target := .card 0 },
               { id := s.timers.nextId + 2, due := s.timers.now + 450, target := .card 1 },
               { id := s.timers.nextId + 3, due := s.timers.now + 600, target := .card 2 }] } } := by
  simp [blogEffect, h, blogScheduleCard, TimerQueue.setTimeout, blogPosts, List.range,
    List.range.loop]

/-! ## Theorems: the reveal of `BlogSection` -/

theorem blog_fire_foldl_frame (l : List (Timer BlogTarget)) (st : BlogState) :
    (l.foldl (fun st t => st.fire t.target) st).sectionIsVisible = st.sectionIsVisible ∧
    (l.foldl (fun st t => st.fire t.target) st).hoveredCard = st.hoveredCard ∧
    (l.foldl (fun st t => st.fire t.target) st).cleanup = st.cleanup ∧
    (l.foldl (fun st t => st.fire t.target) st).timers = st.timers ∧
    (l.foldl (fun st t => st.fire t.target) st).cardVisibleStates.length
      = st.cardVisibleStates.length := by
  induction l generalizing st with
  | nil => simp
  | cons t l ih =>
    rw [List.foldl_cons]
    obtain ⟨h1, h2, h3, h4, h5⟩ := ih (st.fire t.target)
    rw [h1, h2, h3, h4, h5]
    cases t.target <;> simp [BlogState.fire]

/-- A flag that is `true` after timers fired was `true` before or is the target of one of them. -/
theorem blog_fire_foldl_flag (l : List (Timer BlogTarget)) (st : BlogState) (τ : BlogTarget)
    (h : (l.foldl (fun st t => st.fire t.target) st).flag τ = true) :
    st.flag τ = true ∨ ∃ t ∈ l, t.target = τ := by
  induction l generalizing st with
  | nil => exact Or.inl h
  | cons t l ih =>
    rw [List.foldl_cons] at h
    rcases ih (st.fire t.target) h with h1 | ⟨u, hu, hτ⟩
    · by_cases ht : t.target = τ
      · exact Or.inr ⟨t, List.mem_cons_self _ _, ht⟩
      · left
        cases hx : t.target with
        | headline =>
          cases τ with
          | headline => exact absurd hx ht
          | card j => simpa [BlogState.fire, hx, BlogState.flag] using h1
        | card i =>
          cases τ with
          | headline => simpa [BlogState.fire, hx, BlogState.flag] using h1
          | card j =>
            have hij : i ≠ j := fun hij => ht (by rw [hx, hij])
            simpa [BlogState.fire, hx, BlogState.flag, List.getD_eq_getElem?_getD,
              List.getElem?_set, hij] using h1
    · exact Or.inr ⟨u, List.mem_cons_of_mem _ hu, hτ⟩

theorem blogInv_pending_nil (s : BlogState) (h : BlogInv s) (hc : s.cleanup = none) :
    s.timers.pending = [] := by
  apply List.eq_nil_iff_forall_not_mem.mpr
  intro t ht
  obtain ⟨hs, hsome, -⟩ := h.2.2 t ht
  rw [hc] at hsome
  cases hsome

/-- What the false edge leaves of a state that has the reachable shape. -/
theorem blogInv_hide (s : BlogState) (h : BlogInv s) (hv : s.sectionIsVisible = true) :
    (blogStep s (.intersect false)).timers.pending = [] ∧
    (blogStep s (.intersect false)).timers.nextId = s.timers.nextId ∧
    (blogStep s (.intersect false)).cleanup = none ∧
    (blogStep s (.intersect false)).sectionIsVisible = false ∧
    (blogStep s (.intersect false)).headlineVisible = false ∧
    (blogStep s (.intersect false)).cardVisibleStates = [false, false, false] := by
  cases hc : s.cleanup with
  | none =>
    have hp := blogInv_pending_nil s h hc
    simp [blogStep, blogSetIsVisible, hv, blogCleanup, hc, blogEffect, hp, blogPosts]
  | some hs =>
    have hp : (s.timers.clearAll hs).pending = [] := by
      apply List.eq_nil_iff_forall_not_mem.mpr
      intro t ht
      rw [mem_clearAll] at ht
      obtain ⟨hs2, hsome, hmem⟩ := h.2.2 t ht.1
      rw [hc] at hsome
      cases hsome
      exact ht.2 hmem
    simp [blogStep, blogSetIsVisible, hv, blogCleanup, hc, blogEffect, hp, blogPosts,
      (clearAll_now hs s.timers).2]

/-- The true edge from a state that has the reachable shape: the four timers of the
new cycle are all that is pending. -/
theorem blogInv_show (s : BlogState) (h : BlogInv s) (hv : s.sectionIsVisible = false) :
    blogStep s (.intersect true) =
      { s with
        sectionIsVisible := true
        cleanup := some [s.timers.nextId, s.timers.nextId + 1, s.timers.nextId + 2,
          s.timers.nextId + 3]
        timers :=
          { now := s.timers.now
            nextId := s.timers.nextId + 4
            pending :=
              [{ id := s.timers.nextId, due := s.timers.now + 100, target := .headline },
               { id := s.timers.nextId + 1, due := s.timers.now + 300, target := .card 0 },
               { id := s.timers.nextId + 2, due := s.timers.now + 450, target := .card 1 },
               { id := s.timers.nextId + 3, due := s.timers.now + 600, target := .card 2 }] } } := by
  have hc := (h.2.1 hv).1
  have hp := blogInv_pending_nil s h hc
  have hstep : blogStep s (.intersect true) = blogEffect { s with sectionIsVisible := true } := by
    simp [blogStep, blogSetIsVisible, hv, blogCleanup, hc]
  rw [hstep, blogEffect_visible _ rfl]
  simp [hp]

theorem blogInv_step (s : BlogState) (e : BlogEvent) (h : BlogInv s) :
    BlogInv (blogStep s e) := by
  cases e with
  | intersect b =>
    by_cases hb : b = s.sectionIsVisible
    · have hsame : blogStep s (.intersect b) = s := by simp [blogStep, blogSetIsVisible, hb]
      rw [hsame]
      exact h
    · cases b with
      | true =>
        have hv : s.sectionIsVisible = false := by
          cases hx : s.sectionIsVisible
          · rfl
          · exact absurd hx.symm hb
        rw [blogInv_show s h hv]
        refine ⟨h.1, by simp, ?_⟩
        intro t ht
        refine ⟨_, rfl, ?_⟩
        simp only [List.mem_cons, List.mem_singleton, List.not_mem_nil, or_false] at ht
        rcases ht with rfl | rfl | rfl | rfl <;> simp
      | false =>
        have hv : s.sectionIsVisible = true := by
          cases hx : s.sectionIsVisible
          · exact absurd hx.symm hb
          · rfl
        obtain ⟨h1, -, h3, h4, h5, h6⟩ := blogInv_hide s h hv
        refine ⟨by rw [h6]; rfl, fun _ => ⟨h3, h5, h6⟩, ?_⟩
        intro t ht
        rw [h1] at ht
        cases ht
  | elapse ms =>
    obtain ⟨f1, -, f3, f4, f5⟩ := blog_fire_foldl_frame (s.timers.dueWithin ms)
      { s with timers := s.timers.advance ms }
    refine ⟨?_, ?_, ?_⟩
    · show (blogElapse ms s).cardVisibleStates.length = 3
      unfold blogElapse
      rw [f5]
      exact h.1
    · intro hv
      have hv0 : s.sectionIsVisible = false := by
        have : (blogElapse ms s).sectionIsVisible = false := hv
        unfold blogElapse at this
        rw [f1] at this
        exact this
      obtain ⟨hc, hh, hcards⟩ := h.2.1 hv0
      have hp := blogInv_pending_nil s h hc
      have hdue : s.timers.dueWithin ms = [] := by
        simp [TimerQueue.dueWithin, hp]
      show (blogElapse ms s).cleanup = none ∧ (blogElapse ms s).headlineVisible = false ∧
        (blogElapse ms s).cardVisibleStates = [false, false, false]
      unfold blogElapse
      rw [hdue]
      exact ⟨hc, hh, hcards⟩
    · intro t ht
      have ht0 : t ∈ (blogElapse ms s).timers.pending := ht
      unfold blogElapse at ht0
      rw [f4] at ht0
      have hmem : t ∈ s.timers.pending := by
        simp only [TimerQueue.advance, List.mem_filter] at ht0
        exact ht0.1
      obtain ⟨hs, hsome, hid⟩ := h.2.2 t hmem
      refine ⟨hs, ?_, hid⟩
      show (blogElapse ms s).cleanup = some hs
      unfold blogElapse
      rw [f3]
      exact hsome
  | mouseEnter postId => exact h
  | mouseLeave => exact h

theorem blogInv_run (evs : List BlogEvent) (s : BlogState) (h : BlogInv s) :
    BlogInv (blogRun s evs) := by
  induction evs generalizing s with
  | nil => exact h
  | cons e evs ih => exact ih (blogStep s e) (blogInv_step s e h)

theorem blogMount_eq (now nextId : Nat) : blogMount now nextId = blogInitial now nextId := by
  rfl

theorem blogInv_mount (now nextId : Nat) : BlogInv (blogMount now nextId) := by
  rw [blogMount_eq]
  refine ⟨rfl, fun _ => ⟨rfl, rfl, rfl⟩, ?_⟩
  intro t ht
  cases ht

theorem blog_scheduledSince_step (n : Nat) (s : BlogState) (e : BlogEvent) (hinv : BlogInv s)
    (h : ScheduledSince n s.timers) : ScheduledSince n (blogStep s e).timers := by
  cases e with
  | intersect b =>
    by_cases hb : b = s.sectionIsVisible
    · have hsame : blogStep s (.intersect b) = s := by simp [blogStep, blogSetIsVisible, hb]
      rw [hsame]
      exact h
    · cases b with
      | true =>
        have hv : s.sectionIsVisible = false := by
          cases hx : s.sectionIsVisible
          · rfl
          · exact absurd hx.symm hb
        rw [blogInv_show s hinv hv]
        have hn := h.1
        refine ⟨by show n ≤ s.timers.nextId + 4; omega, ?_⟩
        intro t ht
        simp only [List.mem_cons, List.mem_singleton, List.not_mem_nil, or_false] at ht
        rcases ht with rfl | rfl | rfl | rfl <;> simp <;> omega
      | false =>
        have hv : s.sectionIsVisible = true := by
          cases hx : s.sectionIsVisible
          · exact absurd hx.symm hb
          · rfl
        obtain ⟨h1, h2, -⟩ := blogInv_hide s hinv hv
        refine ⟨by rw [h2]; exact h.1, ?_⟩
        intro t ht
        rw [h1] at ht
        cases ht
  | elapse ms =>
    obtain ⟨-, -, -, f4, -⟩ := blog_fire_foldl_frame (s.timers.dueWithin ms)
      { s with timers := s.timers.advance ms }
    show ScheduledSince n (blogElapse ms s).timers
    unfold blogElapse
    rw [f4]
    refine ⟨h.1, ?_⟩
    intro t ht
    simp only [TimerQueue.advance, List.mem_filter] at ht
    exact h.2 t ht.1
  | mouseEnter postId => exact h
  | mouseLeave => exact h

theorem blog_scheduledSince_run (n : Nat) (evs : List BlogEvent) (s : BlogState)
    (hinv : BlogInv s) (h : ScheduledSince n s.timers) :
    ScheduledSince n (blogRun s evs).timers := by
  induction evs generalizing s with
  | nil => exact h
  | cons e evs ih =>
    exact ih (blogStep s e) (blogInv_step s e hinv) (blog_scheduledSince_step n s e hinv h)

/-- A reveal flag of `BlogSection` is raised only by a pending timer that comes due. -/
theorem blog_flag_raised (s : BlogState) (e : BlogEvent) (τ : BlogTarget) (hinv : BlogInv s)
    (h0 : s.flag τ = false) (h1 : (blogStep s e).flag τ = true) :
    ∃ ms, e = .elapse ms ∧
      ∃ t ∈ s.timers.pending, t.target = τ ∧ t.due ≤ s.timers.now + ms := by
  cases e with
  | intersect b =>
    exfalso
    by_cases hb : b = s.sectionIsVisible
    · have hsame : blogStep s (.intersect b) = s := by simp [blogStep, blogSetIsVisible, hb]
      rw [hsame, h0] at h1
      cases h1
    · cases b with
      | true =>
        have hv : s.sectionIsVisible = false := by
          cases hx : s.sectionIsVisible
          · rfl
          · exact absurd hx.symm hb
        rw [blogInv_show s hinv hv] at h1
        cases τ <;> simp_all [BlogState.flag]
      | false =>
        have hv : s.sectionIsVisible = true := by
          cases hx : s.sectionIsVisible
          · exact absurd hx.symm hb
          · rfl
        obtain ⟨-, -, -, -, h5, h6⟩ := blogInv_hide s hinv hv
        cases τ with
        | headline =>
          rw [BlogState.flag, h5] at h1
          cases h1
        | card j =>
          rw [BlogState.flag, h6] at h1
          rcases j with _ | _ | _ | j <;> simp at h1
  | elapse ms =>
    refine ⟨ms, rfl, ?_⟩
    have h1x : ((s.timers.dueWithin ms).foldl
        (fun (st : BlogState) (t : Timer BlogTarget) => st.fire t.target)
        { s with timers := s.timers.advance ms }).flag τ = true := h1
    rcases blog_fire_foldl_flag _ _ τ h1x with hold | ⟨t, ht, hτ⟩
    · exfalso
      have : s.flag τ = true := by
        cases τ <;> simpa [BlogState.flag] using hold
      rw [h0] at this
      cases this
    · rw [mem_dueWithin] at ht
      exact ⟨t, ht.1, hτ, ht.2⟩
  | mouseEnter postId =>
    exfalso
    have : s.flag τ = true := by
      cases τ <;> simpa [BlogState.flag, blogStep] using h1
    rw [h0] at this
    cases this
  | mouseLeave =>
    exfalso
    have : s.flag τ = true := by
      cases τ <;> simpa [BlogState.flag, blogStep] using h1
    rw [h0] at this
    cases this

/-! ## Theorems: the reveal of `ContactSection` -/

/-- Resuming `handleSubmit` touches neither the visibility, the reveal flags, nor the timers. -/
theorem handleSubmitResume_reveal (o : FetchOutcome) (s : ContactState) :
    (handleSubmitResume o s).sectionIsVisible = s.sectionIsVisible ∧
    (handleSubmitResume o s).headlineVisible = s.headlineVisible ∧
    (handleSubmitResume o s).mainContentVisible = s.mainContentVisible ∧
    (handleSubmitResume o s).cleanup = s.cleanup ∧
    (handleSubmitResume o s).timers = s.timers := by
  cases o with
  | rejected => simp [handleSubmitResume, handleSubmitFinally, handleSubmitTry, handleSubmitCatch]
  | response status json =>
    by_cases hok : responseOk status = true
    · simp [handleSubmitResume, handleSubmitFinally, handleSubmitTry, hok]
    · cases json with
      | none =>
        simp [handleSubmitResume, handleSubmitFinally, handleSubmitTry, hok, handleSubmitCatch]
      | some d =>
        cases hm : getMessage d <;>
          simp [handleSubmitResume, handleSubmitFinally, handleSubmitTry, hok, hm,
            handleSubmitCatch]

/-- The form events touch neither the visibility, the reveal flags, nor the timers. -/
theorem contact_form_step_reveal (s : ContactState) (e : ContactEvent)
    (he : ∀ b, e ≠ .intersect b) (he2 : ∀ ms, e ≠ .elapse ms) :
    (contactStep s e).sectionIsVisible = s.sectionIsVisible ∧
    (contactStep s e).headlineVisible = s.headlineVisible ∧
    (contactStep s e).mainContentVisible = s.mainContentVisible ∧
    (contactStep s e).cleanup = s.cleanup ∧
    (contactStep s e).timers = s.timers := by
  cases e with
  | intersect b => exact absurd rfl (he b)
  | elapse ms => exact absurd rfl (he2 ms)
  | changeFullName v => simp [contactStep]
  | changeEmail v => simp [contactStep]
  | changeMessage v => simp [contactStep]
  | submit =>
    by_cases hsub : s.isSubmitting = true
    · simp [contactStep, contactSubmit, hsub]
    · simp [contactStep, contactSubmit, hsub, handleSubmitBegin]
  | settle k o =>
    by_cases hk : k < s.inFlight.length
    · have hstep : contactStep s (.settle k o) =
          handleSubmitResume o { s with inFlight := s.inFlight.eraseIdx k } := by
        simp [contactStep, contactSettle, hk]
      rw [hstep]
      exact handleSubmitResume_reveal o _
    · simp [contactStep, contactSettle, hk]

theorem contactInv_pending_nil (s : ContactState) (h : ContactInv s) (hc : s.cleanup = none) :
    s.timers.pending = [] := by
  apply List.eq_nil_iff_forall_not_mem.mpr
  intro t ht
  obtain ⟨hs, hsome, -⟩ := h.2 t ht
  rw [hc] at hsome
  cases hsome

/-- The false edge: nothing stays pending, and every cell has its mount-time value. -/
theorem contactInv_hide (s : ContactState) (h : ContactInv s) (hv : s.sectionIsVisible = true) :
    contactStep s (.intersect false) =
      { s with
        sectionIsVisible := false, headlineVisible := false, mainContentVisible := false,
        fullName := "", email := "", message := "",
        isSubmitting := false, submitSuccess := false, submitError := .str "",
        cleanup := none,
        timers := { now := s.timers.now, nextId := s.timers.nextId, pending := [] } } := by
  cases hc : s.cleanup with
  | none =>
    have hp := contactInv_pending_nil s h hc
    have hq : s.timers = { now := s.timers.now, nextId := s.timers.nextId, pending := [] } := by
      rw [← hp]
    simp [contactStep, contactSetIsVisible, hv, contactCleanup, hc, contactEffect, ← hq]
  | some hs =>
    have hp : (s.timers.clearAll hs).pending = [] := by
      apply List.eq_nil_iff_forall_not_mem.mpr
      intro t ht
      rw [mem_clearAll] at ht
      obtain ⟨hs2, hsome, hmem⟩ := h.2 t ht.1
      rw [hc] at hsome
      cases hsome
      exact ht.2 hmem
    have hq : s.timers.clearAll hs
        = { now := s.timers.now, nextId := s.timers.nextId, pending := [] } := by
      rw [← hp, ← (clearAll_now hs s.timers).1, ← (clearAll_now hs s.timers).2]
    simp [contactStep, contactSetIsVisible, hv, contactCleanup, hc, contactEffect, hq]

/-- The true edge: the two timers of the new cycle are all that is pending. -/
theorem contactInv_show (s : ContactState) (h : ContactInv s) (hv : s.sectionIsVisible = false) :
    contactStep s (.intersect true) =
      { s with
        sectionIsVisible := true
        cleanup := some [s.timers.nextId, s.timers.nextId + 1]
        timers :=
          { now := s.timers.now
            nextId := s.timers.nextId + 2
            pending :=
              [{ id := s.timers.nextId, due := s.timers.now + 100, target := .headline },
               { id := s.timers.nextId + 1, due := s.timers.now + 300,
                 target := .mainContent }] } } := by
  have hc := (h.1 hv).1
  have hp := contactInv_pending_nil s h hc
  simp [contactStep, contactSetIsVisible, hv, contactCleanup, hc, contactEffect,
    TimerQueue.setTimeout, hp]

theorem contact_not_visible (s : ContactState) (b : Bool) (hb : ¬ b = s.sectionIsVisible) :
    s.sectionIsVisible = !b := by
  cases b <;> cases hx : s.sectionIsVisible <;> simp_all

theorem contact_elapse_eq (ms : Nat) (s : ContactState) :
    contactStep s (.elapse ms) =
      { s with
        timers := s.timers.advance ms
        headlineVisible :=
          s.headlineVisible || (s.timers.dueWithin ms).any (fun t => t.target == .headline)
        mainContentVisible :=
          s.mainContentVisible ||
            (s.timers.dueWithin ms).any (fun t => t.target == .mainContent) } := by
  simp [contactStep, contactElapse, contact_fire_foldl]

theorem contactInv_step (s : ContactState) (e : ContactEvent) (h : ContactInv s) :
    ContactInv (contactStep s e) := by
  by_cases he : (∀ b, e ≠ .intersect b) ∧ (∀ ms, e ≠ .elapse ms)
  · obtain ⟨f1, f2, f3, f4, f5⟩ := contact_form_step_reveal s e he.1 he.2
    unfold ContactInv
    rw [f1, f2, f3, f4, f5]
    exact h
  · cases e with
    | intersect b =>
      by_cases hb : b = s.sectionIsVisible
      · have hsame : contactStep s (.intersect b) = s := by
          simp [contactStep, contactSetIsVisible, hb]
        rw [hsame]
        exact h
      · have hv := contact_not_visible s b hb
        cases b with
        | true =>
          rw [contactInv_show s h hv]
          refine ⟨by simp, ?_⟩
          intro t ht
          refine ⟨_, rfl, ?_⟩
          simp only [List.mem_cons, List.mem_singleton, List.not_mem_nil, or_false] at ht
          rcases ht with rfl | rfl <;> simp
        | false =>
          rw [contactInv_hide s h hv]
          refine ⟨fun _ => ⟨rfl, rfl, rfl⟩, ?_⟩
          intro t ht
          cases ht
    | elapse ms =>
      rw [contact_elapse_eq]
      refine ⟨?_, ?_⟩
      · intro hv
        obtain ⟨hc, hh, hm⟩ := h.1 hv
        have hp := contactInv_pending_nil s h hc
        have hdue : s.timers.dueWithin ms = [] := by
          simp [TimerQueue.dueWithin, hp]
        simp [hc, hh, hm, hdue]
      · intro t ht
        have hmem : t ∈ s.timers.pending := by
          simp only [TimerQueue.advance, List.mem_filter] at ht
          exact ht.1
        exact h.2 t hmem
    | changeFullName v => simp at he
    | changeEmail v => simp at he
    | changeMessage v => simp at he
    | submit => simp at he
    | settle k o => simp at he

theorem contactInv_run (evs : List ContactEvent) (s : ContactState) (h : ContactInv s) :
    ContactInv (contactRun s evs) := by
  induction evs generalizing s with
  | nil => exact h
  | cons e evs ih => exact ih (contactStep s e) (contactInv_step s e h)

theorem contactMount_eq (now nextId : Nat) :
    contactMount now nextId = contactInitial now nextId := by
  rfl

theorem contactInv_mount (now nextId : Nat) : ContactInv (contactMount now nextId) := by
  rw [contactMount_eq]
  refine ⟨fun _ => ⟨rfl, rfl, rfl⟩, ?_⟩
  intro t ht
  cases ht

theorem contact_scheduledSince_step (n : Nat) (s : ContactState) (e : ContactEvent)
    (hinv : ContactInv s) (h : ScheduledSince n s.timers) :
    ScheduledSince n (contactStep s e).timers := by
  by_cases he : (∀ b, e ≠ .intersect b) ∧ (∀ ms, e ≠ .elapse ms)
  · rw [(contact_form_step_reveal s e he.1 he.2).2.2.2.2]
    exact h
  · cases e with
    | intersect b =>
      by_cases hb : b = s.sectionIsVisible
      · have hsame : contactStep s (.intersect b) = s := by
          simp [contactStep, contactSetIsVisible, hb]
        rw [hsame]
        exact h
      · have hv := contact_not_visible s b hb
        have hn := h.1
        cases b with
        | true =>
          rw [contactInv_show s hinv hv]
          refine ⟨by show n ≤ s.timers.nextId + 2; omega, ?_⟩
          intro t ht
          simp only [List.mem_cons, List.mem_singleton, List.not_mem_nil, or_false] at ht
          rcases ht with rfl | rfl <;> simp <;> omega
        | false =>
          rw [contactInv_hide s hinv hv]
          refine ⟨hn, ?_⟩
          intro t ht
          cases ht
    | elapse ms =>
      rw [contact_elapse_eq]
      refine ⟨h.1, ?_⟩
      intro t ht
      simp only [TimerQueue.advance, List.mem_filter] at ht
      exact h.2 t ht.1
    | changeFullName v => simp at he
    | changeEmail v => simp at he
    | changeMessage v => simp at he
    | submit => simp at he
    | settle k o => simp at he

theorem contact_scheduledSince_run (n : Nat) (evs : List ContactEvent) (s : ContactState)
    (hinv : ContactInv s) (h : ScheduledSince n s.timers) :
    ScheduledSince n (contactRun s evs).timers := by
  induction evs generalizing s with
  | nil => exact h
  | cons e evs ih =>
    exact ih (contactStep s e) (contactInv_step s e hinv)
      (contact_scheduledSince_step n s e hinv h)

/-- A reveal flag of `ContactSection` is raised only by a pending timer that comes due. -/
theorem contact_flag_raised (s : ContactState) (e : ContactEvent) (τ : ContactTarget)
    (hinv : ContactInv s) (h0 : s.flag τ = false) (h1 : (contactStep s e).flag τ = true) :
    ∃ ms, e = .elapse ms ∧
      ∃ t ∈ s.timers.pending, t.target = τ ∧ t.due ≤ s.timers.now + ms := by
  by_cases he : (∀ b, e ≠ .intersect b) ∧ (∀ ms, e ≠ .elapse ms)
  · exfalso
    obtain ⟨-, f2, f3, -, -⟩ := contact_form_step_reveal s e he.1 he.2
    cases τ <;> simp_all [ContactState.flag]
  · cases e with
    | intersect b =>
      exfalso
      by_cases hb : b = s.sectionIsVisible
      · have hsame : contactStep s (.intersect b) = s := by
          simp [contactStep, contactSetIsVisible, hb]
        rw [hsame, h0] at h1
        cases h1
      · have hv := contact_not_visible s b hb
        cases b with
        | true =>
          rw [contactInv_show s hinv hv] at h1
          cases τ <;> simp_all [ContactState.flag]
        | false =>
          rw [contactInv_hide s hinv hv] at h1
          cases τ <;> simp [ContactState.flag] at h1
    | elapse ms =>
      refine ⟨ms, rfl, ?_⟩
      rw [contact_elapse_eq] at h1
      cases τ with
      | headline =>
        simp only [ContactState.flag] at h0 h1
        simp only [h0, Bool.false_or, List.any_eq_true, beq_iff_eq] at h1
        obtain ⟨t, ht, hτ⟩ := h1
        rw [mem_dueWithin] at ht
        exact ⟨t, ht.1, hτ, ht.2⟩
      | mainContent =>
        simp only [ContactState.flag] at h0 h1
        simp only [h0, Bool.false_or, List.any_eq_true, beq_iff_eq] at h1
        obtain ⟨t, ht, hτ⟩ := h1
        rw [mem_dueWithin] at ht
        exact ⟨t, ht.1, hτ, ht.2⟩
    | changeFullName v => simp at he
    | changeEmail v => simp at he
    | changeMessage v => simp at he
    | submit => simp at he
    | settle k o => simp at he

/-! ## Theorems: cancellation at the false edge -/

theorem blogFalseEdge_facts (now nextId : Nat) (before : List BlogEvent) :
    (blogFalseEdge now nextId before).timers.pending = [] ∧
    (blogFalseEdge now nextId before).timers.nextId
      = (blogRun (blogMount now nextId) before).timers.nextId ∧
    BlogInv (blogFalseEdge now nextId before) := by
  have hinv := blogInv_run before _ (blogInv_mount now nextId)
  refine ⟨?_, ?_, blogInv_step _ _ hinv⟩
  · cases hv : (blogRun (blogMount now nextId) before).sectionIsVisible with
    | true => exact (blogInv_hide _ hinv hv).1
    | false =>
      have hsame : blogFalseEdge now nextId before = blogRun (blogMount now nextId) before := by
        simp [blogFalseEdge, blogStep, blogSetIsVisible, hv]
      rw [hsame]
      exact blogInv_pending_nil _ hinv (hinv.2.1 hv).1
  · cases hv : (blogRun (blogMount now nextId) before).sectionIsVisible with
    | true => exact (blogInv_hide _ hinv hv).2.1
    | false =>
      have hsame : blogFalseEdge now nextId before = blogRun (blogMount now nextId) before := by
        simp [blogFalseEdge, blogStep, blogSetIsVisible, hv]
      rw [hsame]

theorem contactFalseEdge_facts (now nextId : Nat) (before : List ContactEvent) :
    (contactFalseEdge now nextId before).timers.pending = [] ∧
    (contactFalseEdge now nextId before).timers.nextId
      = (contactRun (contactMount now nextId) before).timers.nextId ∧
    ContactInv (contactFalseEdge now nextId before) := by
  have hinv := contactInv_run before _ (contactInv_mount now nextId)
  refine ⟨?_, ?_, contactInv_step _ _ hinv⟩
  · cases hv : (contactRun (contactMount now nextId) before).sectionIsVisible with
    | true =>
      unfold contactFalseEdge
      rw [contactInv_hide _ hinv hv]
    | false =>
      have hsame : contactFalseEdge now nextId before
          = contactRun (contactMount now nextId) before := by
        simp [contactFalseEdge, contactStep, contactSetIsVisible, hv]
      rw [hsame]
      exact contactInv_pending_nil _ hinv (hinv.1 hv).1
  · cases hv : (contactRun (contactMount now nextId) before).sectionIsVisible with
    | true =>
      unfold contactFalseEdge
      rw [contactInv_hide _ hinv hv]
    | false =>
      have hsame : contactFalseEdge now nextId before
          = contactRun (contactMount now nextId) before := by
        simp [contactFalseEdge, contactStep, contactSetIsVisible, hv]
      rw [hsame]

/-- C8: in `BlogSection` and in `ContactSection`, after any event sequence `before`
since the mount, the false edge leaves no timer pending (the cleanup of the earlier
cycle has run before the next true edge can schedule anything); whatever follows
(`after`), no timer that was pending before the edge is pending again, and a step
raises a reveal flag only when it is the clock reaching the due time of a pending
timer with the flag as target whose handle was issued after the edge. -/
theorem no_stale_timer_after_false_edge (now nextId : Nat) :
    (∀ (before after : List BlogEvent),
      (blogFalseEdge now nextId before).timers.pending = [] ∧
      (∀ t ∈ (blogRun (blogMount now nextId) before).timers.pending,
        t ∉ (blogRun (blogFalseEdge now nextId before) after).timers.pending) ∧
      (∀ e τ, (blogRun (blogFalseEdge now nextId before) after).flag τ = false →
        (blogStep (blogRun (blogFalseEdge now nextId before) after) e).flag τ = true →
        ∃ ms, e = .elapse ms ∧
          ∃ t ∈ (blogRun (blogFalseEdge now nextId before) after).timers.pending,
            t.target = τ ∧
            t.due ≤ (blogRun (blogFalseEdge now nextId before) after).timers.now + ms ∧
            (blogFalseEdge now nextId before).timers.nextId ≤ t.id)) ∧
    (∀ (before after : List ContactEvent),
      (contactFalseEdge now nextId before).timers.pending = [] ∧
      (∀ t ∈ (contactRun (contactMount now nextId) before).timers.pending,
        t ∉ (contactRun (contactFalseEdge now nextId before) after).timers.pending) ∧
      (∀ e τ, (contactRun (contactFalseEdge now nextId before) after).flag τ = false →
        (contactStep (contactRun (contactFalseEdge now nextId before) after) e).flag τ = true →
        ∃ ms, e = .elapse ms ∧
          ∃ t ∈ (contactRun (contactFalseEdge now nextId before) after).timers.pending,
            t.target = τ ∧
            t.due ≤ (contactRun (contactFalseEdge now nextId before) after).timers.now + ms ∧
            (contactFalseEdge now nextId before).timers.nextId ≤ t.id)) := by
  constructor
  · intro before after
    obtain ⟨hp, hn, hinv⟩ := blogFalseEdge_facts now nextId before
    have hold := blog_scheduledSince_run 0 before _ (blogInv_mount now nextId)
      ⟨Nat.zero_le _, fun t ht => by cases ht⟩
    have hnew := blog_scheduledSince_run (blogFalseEdge now nextId before).timers.nextId after
      _ hinv ⟨le_refl _, fun t ht => by rw [hp] at ht; cases ht⟩
    refine ⟨hp, ?_, ?_⟩
    · intro t ht hmem
      have h1 := (hold.2 t ht).2
      have h2 := (hnew.2 t hmem).1
      omega
    · intro e τ h0 h1
      obtain ⟨ms, he, t, ht, hτ, hdue⟩ :=
        blog_flag_raised _ e τ (blogInv_run after _ hinv) h0 h1
      exact ⟨ms, he, t, ht, hτ, hdue, (hnew.2 t ht).1⟩
  · intro before after
    obtain ⟨hp, hn, hinv⟩ := contactFalseEdge_facts now nextId before
    have hold := contact_scheduledSince_run 0 before _ (contactInv_mount now nextId)
      ⟨Nat.zero_le _, fun t ht => by cases ht⟩
    have hnew := contact_scheduledSince_run (contactFalseEdge now nextId before).timers.nextId
      after _ hinv ⟨le_refl _, fun t ht => by rw [hp] at ht; cases ht⟩
    refine ⟨hp, ?_, ?_⟩
    · intro t ht hmem
      have h1 := (hold.2 t ht).2
      have h2 := (hnew.2 t hmem).1
      omega
    · intro e τ h0 h1
      obtain ⟨ms, he, t, ht, hτ, hdue⟩ :=
        contact_flag_raised _ e τ (contactInv_run after _ hinv) h0 h1
      exact ⟨ms, he, t, ht, hτ, hdue, (hnew.2 t ht).1⟩

theorem no_stale_timer_after_false_edge_witness :
    ((blogFalseEdge 0 1 [.intersect true, .elapse 90]).timers.pending = [] ∧
      ({ id := 1, due := 100, target := .headline } : Timer BlogTarget) ∉
        (blogRun (blogFalseEdge 0 1 [.intersect true, .elapse 90])
          [.intersect true, .elapse 90]).timers.pending ∧
      ∃ ms, BlogEvent.elapse 20 = .elapse ms ∧
        ∃ t ∈ (blogRun (blogFalseEdge 0 1 [.intersect true, .elapse 90])
            [.intersect true, .elapse 90]).timers.pending,
          t.target = .headline ∧
          t.due ≤ (blogRun (blogFalseEdge 0 1 [.intersect true, .elapse 90])
            [.intersect true, .elapse 90]).timers.now + ms ∧
          (blogFalseEdge 0 1 [.intersect true, .elapse 90]).timers.nextId ≤ t.id) ∧
    ((contactFalseEdge 0 1 [.intersect true, .elapse 90]).timers.pending = [] ∧
      ({ id := 2, due := 300, target := .mainContent } : Timer ContactTarget) ∉
        (contactRun (contactFalseEdge 0 1 [.intersect true, .elapse 90])
          [.intersect true, .elapse 250]).timers.pending ∧
      ∃ ms, ContactEvent.elapse 60 = .elapse ms ∧
        ∃ t ∈ (contactRun (contactFalseEdge 0 1 [.intersect true, .elapse 90])
            [.intersect true, .elapse 250]).timers.pending,
          t.target = .mainContent ∧
          t.due ≤ (contactRun (contactFalseEdge 0 1 [.intersect true, .elapse 90])
            [.intersect true, .elapse 250]).timers.now + ms ∧
          (contactFalseEdge 0 1 [.intersect true, .elapse 90]).timers.nextId ≤ t.id) :=
  ⟨⟨((no_stale_timer_after_false_edge 0 1).1 [.intersect true, .elapse 90]
        [.intersect true, .elapse 90]).1,
    ((no_stale_timer_after_false_edge 0 1).1 [.intersect true, .elapse 90]
        [.intersect true, .elapse 90]).2.1 _ (List.mem_cons_self _ _),
    ((no_stale_timer_after_false_edge 0 1).1 [.intersect true, .elapse 90]
        [.intersect true, .elapse 90]).2.2 (.elapse 20) .headline rfl rfl⟩,
   ⟨((no_stale_timer_after_false_edge 0 1).2 [.intersect true, .elapse 90]
        [.intersect true, .elapse 250]).1,
    ((no_stale_timer_after_false_edge 0 1).2 [.intersect true, .elapse 90]
        [.intersect true, .elapse 250]).2.1 _
        (List.mem_cons_of_mem _ (List.mem_cons_self _ _)),
    ((no_stale_timer_after_false_edge 0 1).2 [.intersect true, .elapse 90]
        [.intersect true, .elapse 250]).2.2 (.elapse 60) .mainContent rfl rfl⟩⟩

/-! ## Theorems: the schedule of the reveal -/

theorem blogRevealedAt_elapse (now nextId : Nat) (hovered : Option Nat) (t d : Nat) :
    blogStep (blogRevealedAt now nextId hovered t) (.elapse d)
      = blogRevealedAt now nextId hovered (t + d) := by
  have e1 : now + t + d = now + (t + d) := by omega
  by_cases h1 : 100 ≤ t <;> by_cases h2 : 300 ≤ t <;> by_cases h3 : 450 ≤ t <;>
    by_cases h4 : 600 ≤ t <;> try omega
  all_goals
    by_cases g1 : 100 ≤ t + d <;> by_cases g2 : 300 ≤ t + d <;> by_cases g3 : 450 ≤ t + d <;>
      by_cases g4 : 600 ≤ t + d <;> try omega
  all_goals
    simp [blogStep, blogElapse, blogRevealedAt, blogCycleTimers, TimerQueue.dueWithin,
      TimerQueue.advance, List.filter, BlogState.fire, e1, h1, h2, h3, h4, g1, g2, g3, g4,
      List.insertionSort, List.orderedInsert]

/-- The true edge from a state of the reachable shape starts the schedule at `t = 0`. -/
theorem blogRevealedAt_zero (s : BlogState) (h : BlogInv s) (hv : s.sectionIsVisible = false) :
    blogStep s (.intersect true)
      = blogRevealedAt s.timers.now s.timers.nextId s.hoveredCard 0 := by
  rw [blogInv_show s h hv]
  obtain ⟨-, hh, hcards⟩ := h.2.1 hv
  simp [blogRevealedAt, blogCycleTimers, hh, hcards]

theorem blogRevealedAt_run (evs : List BlogEvent) (hvis : blogStaysVisible evs = true)
    (now nextId : Nat) (hovered : Option Nat) (t : Nat) :
    ∃ hovered2, blogRun (blogRevealedAt now nextId hovered t) evs
      = blogRevealedAt now nextId hovered2 (t + blogElapsed evs) := by
  induction evs generalizing hovered t with
  | nil => exact ⟨hovered, rfl⟩
  | cons e evs ih =>
    have hrest : blogStaysVisible evs = true := by
      simp only [blogStaysVisible, List.all_cons, Bool.and_eq_true] at hvis
      exact hvis.2
    cases e with
    | intersect b =>
      cases b with
      | true =>
        obtain ⟨h2, hrun⟩ := ih hrest hovered t
        exact ⟨h2, hrun⟩
      | false => simp [blogStaysVisible] at hvis
    | elapse d =>
      obtain ⟨h2, hrun⟩ := ih hrest hovered (t + d)
      refine ⟨h2, ?_⟩
      show blogRun (blogStep (blogRevealedAt now nextId hovered t) (.elapse d)) evs = _
      rw [blogRevealedAt_elapse, hrun]
      simp [blogElapsed, Nat.add_assoc]
    | mouseEnter postId =>
      obtain ⟨h2, hrun⟩ := ih hrest (some postId) t
      exact ⟨h2, hrun⟩
    | mouseLeave =>
      obtain ⟨h2, hrun⟩ := ih hrest none t
      exact ⟨h2, hrun⟩

/-- C9: `BlogSection` is mounted, comes into view and stays in view during the
events `evs` (time passing, repeated in-view reports, hovering).  With `t` the time
that has passed since it came into view, the headline flag is `true` iff `100 ≤ t`,
the flag of card `i < 3` is `true` iff `300 + 150 * i ≤ t`, and a card is never
revealed while a card before it is not. -/
theorem blog_reveal_schedule (now nextId : Nat) (evs : List BlogEvent)
    (hvis : blogStaysVisible evs = true) :
    (blogRun (blogStep (blogMount now nextId) (.intersect true)) evs).flag .headline
      = decide (100 ≤ blogElapsed evs) ∧
    (∀ i, i < 3 →
      (blogRun (blogStep (blogMount now nextId) (.intersect true)) evs).flag (.card i)
        = decide (300 + 150 * i ≤ blogElapsed evs)) ∧
    (∀ i j, i ≤ j → j < 3 →
      (blogRun (blogStep (blogMount now nextId) (.intersect true)) evs).flag (.card j) = true →
      (blogRun (blogStep (blogMount now nextId) (.intersect true)) evs).flag (.card i)
        = true) := by
  rw [blogRevealedAt_zero _ (blogInv_mount now nextId) rfl]
  obtain ⟨h2, hrun⟩ := blogRevealedAt_run evs hvis (blogMount now nextId).timers.now
    (blogMount now nextId).timers.nextId (blogMount now nextId).hoveredCard 0
  rw [hrun]
  have hcard : ∀ i, i < 3 →
      (blogRevealedAt (blogMount now nextId).timers.now (blogMount now nextId).timers.nextId
        h2 (0 + blogElapsed evs)).flag (.card i)
        = decide (300 + 150 * i ≤ blogElapsed evs) := by
    intro i hi
    rcases i with _ | _ | _ | i
    · simp [BlogState.flag, blogRevealedAt]
    · simp [BlogState.flag, blogRevealedAt]
    · simp [BlogState.flag, blogRevealedAt]
    · omega
  refine ⟨by simp [BlogState.flag, blogRevealedAt], hcard, ?_⟩
  intro i j hij hj hflag
  rw [hcard j hj] at hflag
  rw [hcard i (by omega)]
  simp only [decide_eq_true_eq] at hflag ⊢
  have : 150 * i ≤ 150 * j := Nat.mul_le_mul_left 150 hij
  omega

theorem blog_reveal_schedule_witness :
    (blogRun (blogStep (blogMount 0 1) (.intersect true)) [.elapse 90]).flag .headline
      = false ∧
    (blogRun (blogStep (blogMount 0 1) (.intersect true))
        [.elapse 90, .mouseEnter 2, .elapse 20]).flag .headline = true ∧
    (blogRun (blogStep (blogMount 0 1) (.intersect true))
        [.elapse 110, .intersect true, .mouseLeave, .elapse 330]).flag (.card 0) = true ∧
    (blogRun (blogStep (blogMount 0 1) (.intersect true))
        [.elapse 110, .intersect true, .mouseLeave, .elapse 330]).flag (.card 1) = false :=
  ⟨(blog_reveal_schedule 0 1 [.elapse 90] rfl).1,
   (blog_reveal_schedule 0 1 [.elapse 90, .mouseEnter 2, .elapse 20] rfl).1,
   (blog_reveal_schedule 0 1 [.elapse 110, .intersect true, .mouseLeave, .elapse 330]
      rfl).2.1 0 (by decide),
   (blog_reveal_schedule 0 1 [.elapse 110, .intersect true, .mouseLeave, .elapse 330]
      rfl).2.1 1 (by decide)⟩

/-! ## Theorems: the reset out of view -/

/-- C10: (Blog) the mounted `BlogSection` has the headline flag and the three card
flags `false`; the false edge sets them to `false` from any state whatever; and in
every reachable state that is out of view they are `false` and no timer is pending.
(Contact) the mounted `ContactSection` has both reveal flags `false`, the three fields
empty, `isSubmitting` and `submitSuccess` `false` and `submitError` empty; the false
edge sets every one of these cells to that value from any state whatever; and in every
reachable state that is out of view both reveal flags are `false` and no timer is pending. -/
theorem hidden_state_is_reset (now nextId : Nat) :
    ((blogMount now nextId).sectionIsVisible = false ∧
      (blogMount now nextId).headlineVisible = false ∧
      (blogMount now nextId).cardVisibleStates = [false, false, false]) ∧
    (∀ s : BlogState, s.sectionIsVisible = true →
      (blogStep s (.intersect false)).sectionIsVisible = false ∧
      (blogStep s (.intersect false)).headlineVisible = false ∧
      (blogStep s (.intersect false)).cardVisibleStates = [false, false, false]) ∧
    (∀ evs, (blogRun (blogMount now nextId) evs).sectionIsVisible = false →
      (blogRun (blogMount now nextId) evs).headlineVisible = false ∧
      (blogRun (blogMount now nextId) evs).cardVisibleStates = [false, false, false] ∧
      (blogRun (blogMount now nextId) evs).timers.pending = []) ∧
    ((contactMount now nextId).sectionIsVisible = false ∧
      (contactMount now nextId).headlineVisible = false ∧
      (contactMount now nextId).mainContentVisible = false ∧
      (contactMount now nextId).fullName = "" ∧
      (contactMount now nextId).email = "" ∧
      (contactMount now nextId).message = "" ∧
      (contactMount now nextId).isSubmitting = false ∧
      (contactMount now nextId).submitSuccess = false ∧
      (contactMount now nextId).submitError = .str "") ∧
    (∀ s : ContactState, s.sectionIsVisible = true →
      (contactStep s (.intersect false)).sectionIsVisible = false ∧
      (contactStep s (.intersect false)).headlineVisible = false ∧
      (contactStep s (.intersect false)).mainContentVisible = false ∧
      (contactStep s (.intersect false)).fullName = "" ∧
      (contactStep s (.intersect false)).email = "" ∧
      (contactStep s (.intersect false)).message = "" ∧
      (contactStep s (.intersect false)).isSubmitting = false ∧
      (contactStep s (.intersect false)).submitSuccess = false ∧
      (contactStep s (.intersect false)).submitError = .str "") ∧
    (∀ evs, (contactRun (contactMount now nextId) evs).sectionIsVisible = false →
      (contactRun (contactMount now nextId) evs).headlineVisible = false ∧
      (contactRun (contactMount now nextId) evs).mainContentVisible = false ∧
      (contactRun (contactMount now nextId) evs).timers.pending = []) := by
  refine ⟨⟨rfl, rfl, rfl⟩, ?_, ?_, ⟨rfl, rfl, rfl, rfl, rfl, rfl, rfl, rfl, rfl⟩, ?_, ?_⟩
  · intro s hv
    cases hc : s.cleanup <;>
      simp [blogStep, blogSetIsVisible, hv, blogCleanup, hc, blogEffect, blogPosts]
  · intro evs hv
    have hinv := blogInv_run evs _ (blogInv_mount now nextId)
    obtain ⟨hc, hh, hcards⟩ := hinv.2.1 hv
    exact ⟨hh, hcards, blogInv_pending_nil _ hinv hc⟩
  · intro s hv
    cases hc : s.cleanup <;>
      simp [contactStep, contactSetIsVisible, hv, contactCleanup, hc, contactEffect]
  · intro evs hv
    have hinv := contactInv_run evs _ (contactInv_mount now nextId)
    obtain ⟨hc, hh, hm⟩ := hinv.1 hv
    exact ⟨hh, hm, contactInv_pending_nil _ hinv hc⟩

theorem hidden_state_is_reset_witness :
    ((blogStep (blogRun (blogMount 0 1) [.intersect true, .elapse 500])
        (.intersect false)).sectionIsVisible = false ∧
      (blogStep (blogRun (blogMount 0 1) [.intersect true, .elapse 500])
        (.intersect false)).headlineVisible = false ∧
      (blogStep (blogRun (blogMount 0 1) [.intersect true, .elapse 500])
        (.intersect false)).cardVisibleStates = [false, false, false]) ∧
    ((blogRun (blogMount 0 1) [.intersect true, .elapse 500, .intersect false,
        .elapse 1000]).headlineVisible = false ∧
      (blogRun (blogMount 0 1) [.intersect true, .elapse 500, .intersect false,
        .elapse 1000]).cardVisibleStates = [false, false, false] ∧
      (blogRun (blogMount 0 1) [.intersect true, .elapse 500, .intersect false,
        .elapse 1000]).timers.pending = []) ∧
    ((contactStep contactAfterError (.intersect false)).sectionIsVisible = false ∧
      (contactStep contactAfterError (.intersect false)).headlineVisible = false ∧
      (contactStep contactAfterError (.intersect false)).mainContentVisible = false ∧
      (contactStep contactAfterError (.intersect false)).fullName = "" ∧
      (contactStep contactAfterError (.intersect false)).email = "" ∧
      (contactStep contactAfterError (.intersect false)).message = "" ∧
      (contactStep contactAfterError (.intersect false)).isSubmitting = false ∧
      (contactStep contactAfterError (.intersect false)).submitSuccess = false ∧
      (contactStep contactAfterError (.intersect false)).submitError = .str "") ∧
    ((contactRun (contactMount 0 1) [.intersect true, .elapse 500, .intersect false,
        .elapse 1000]).headlineVisible = false ∧
      (contactRun (contactMount 0 1) [.intersect true, .elapse 500, .intersect false,
        .elapse 1000]).mainContentVisible = false ∧
      (contactRun (contactMount 0 1) [.intersect true, .elapse 500, .intersect false,
        .elapse 1000]).timers.pending = []) :=
  ⟨(hidden_state_is_reset 0 1).2.1 _ rfl,
   (hidden_state_is_reset 0 1).2.2.1 _ rfl,
   (hidden_state_is_reset 0 1).2.2.2.2.1 contactAfterError rfl,
   (hidden_state_is_reset 0 1).2.2.2.2.2 _ rfl⟩

/-! ## Theorems: the request of `handleSubmit` -/

/-- C11: a run of `handleSubmit` from any state `s` first sets `isSubmitting` to
`true` and clears `submitSuccess` and `submitError`, no request having been issued
yet, and then issues exactly one request: method POST, the fixed URL, the header
`Content-Type: application/json`, and a body whose `fullName`, `email` and `message`
are the three field cells of `s`.  The rest of `handleSubmit`, whatever the outcome
and the state it resumes in, issues no further request. -/
theorem handleSubmit_issues_one_post (s : ContactState) :
    handleSubmitBegin s = handleSubmitFetch (handleSubmitSetters s) ∧
    (handleSubmitSetters s).isSubmitting = true ∧
    (handleSubmitSetters s).submitSuccess = false ∧
    (handleSubmitSetters s).submitError = .str "" ∧
    (handleSubmitSetters s).fetchLog = s.fetchLog ∧
    (handleSubmitBegin s).fetchLog = s.fetchLog ++
      [{ url := "https://work2-vn12.onrender.com/api/contact/submit/"
         method := "POST"
         headers := [("Content-Type", "application/json")]
         body := .obj [("fullName", .str s.fullName), ("email", .str s.email),
                       ("message", .str s.message)] }] ∧
    (∀ (o : FetchOutcome) (resumed : ContactState),
      (handleSubmitResume o resumed).fetchLog = resumed.fetchLog) ∧
    contactStep s .submit = (if s.isSubmitting then s else handleSubmitBegin s) := by
  refine ⟨rfl, rfl, rfl, rfl, rfl, rfl, ?_, rfl⟩
  intro o resumed
  exact (handleSubmitResume_frame o resumed).2.1

/-! ## Theorems: the observer of `useSectionVisibility` -/

/-- C12, evaluated on the code: mounting a section registers exactly one observer,
which observes the root element; after the section is removed, the ref being
detached by then, the cleanup finds `ref.current` null and does not call `unobserve`,
so that observer is still registered and still observes the element.  Had the
cleanup run with the ref still attached, no observer would be left. -/
theorem unmount_keeps_observer_registered (element : Nat) :
    registeredObservers (sectionMount element) = [⟨[element]⟩] ∧
    (sectionUnmount (sectionMount element)).refCurrent = none ∧
    registeredObservers (sectionUnmount (sectionMount element)) = [⟨[element]⟩] ∧
    registeredObservers (useSectionVisibilityCleanup (sectionMount element)) = [] := by
  simp [registeredObservers, sectionMount, sectionUnmount, useSectionVisibilityEffect,
    useSectionVisibilityCleanup, useSectionVisibilityInitial, IntersectionObserver.observe,
    IntersectionObserver.unobserve]

/-! ## Theorems: the reveal effect runs only when visibility changes -/

/-- C14: every step of `BlogSection` is the update of the event followed by React
comparing `[sectionIsVisible, blogPosts.length]` with the render before; a re-render
that leaves `sectionIsVisible` as it was, whatever else changed, does not run the
effect; so while the section is in view a repeated in-view report changes nothing,
hovering leaves the timers untouched, and time passing schedules nothing: no handle
is issued and the pending timers are those of before that are not yet due. -/
theorem reveal_effect_not_rerun :
    (∀ (s : BlogState) (e : BlogEvent), blogStep s e = blogCommit s (blogUpdate s e)) ∧
    (∀ prev next : BlogState, next.sectionIsVisible = prev.sectionIsVisible →
      blogCommit prev next = next) ∧
    (∀ s : BlogState, s.sectionIsVisible = true → blogStep s (.intersect true) = s) ∧
    (∀ (s : BlogState) (postId : Nat),
      (blogStep s (.mouseEnter postId)).timers = s.timers ∧
      (blogStep s (.mouseEnter postId)).cleanup = s.cleanup ∧
      (blogStep s .mouseLeave).timers = s.timers ∧
      (blogStep s .mouseLeave).cleanup = s.cleanup) ∧
    (∀ (s : BlogState) (ms : Nat),
      (blogStep s (.elapse ms)).timers.nextId = s.timers.nextId ∧
      (blogStep s (.elapse ms)).cleanup = s.cleanup ∧
      (blogStep s (.elapse ms)).timers.pending
        = s.timers.pending.filter (fun t => !decide (t.due ≤ s.timers.now + ms))) := by
  refine ⟨?_, ?_, ?_, ?_, ?_⟩
  · intro s e
    cases e with
    | intersect b =>
      by_cases hb : b = s.sectionIsVisible
      · subst hb
        simp [blogStep, blogSetIsVisible, blogCommit, blogUpdate, blogDeps]
      · simp [blogStep, blogSetIsVisible, blogCommit, blogUpdate, blogDeps, hb]
    | elapse ms =>
      have hv : (blogElapse ms s).sectionIsVisible = s.sectionIsVisible :=
        (blog_fire_foldl_frame (s.timers.dueWithin ms)
          { s with timers := s.timers.advance ms }).1
      simp [blogStep, blogCommit, blogUpdate, blogDeps, hv]
    | mouseEnter postId => simp [blogStep, blogCommit, blogUpdate, blogDeps]
    | mouseLeave => simp [blogStep, blogCommit, blogUpdate, blogDeps]
  · intro prev next h
    simp [blogCommit, blogDeps, h]
  · intro s hv
    simp [blogStep, blogSetIsVisible, hv]
  · intro s postId
    exact ⟨rfl, rfl, rfl, rfl⟩
  · intro s ms
    obtain ⟨-, -, f3, f4, -⟩ := blog_fire_foldl_frame (s.timers.dueWithin ms)
      { s with timers := s.timers.advance ms }
    refine ⟨?_, ?_, ?_⟩
    · show (blogElapse ms s).timers.nextId = s.timers.nextId
      unfold blogElapse
      rw [f4]
      rfl
    · show (blogElapse ms s).cleanup = s.cleanup
      unfold blogElapse
      rw [f3]
    · show (blogElapse ms s).timers.pending = _
      unfold blogElapse
      rw [f4]
      rfl

theorem reveal_effect_not_rerun_witness :
    blogCommit (blogRun (blogMount 0 1) [.intersect true, .elapse 90])
        (blogUpdate (blogRun (blogMount 0 1) [.intersect true, .elapse 90]) (.elapse 20))
      = blogUpdate (blogRun (blogMount 0 1) [.intersect true, .elapse 90]) (.elapse 20) ∧
    blogStep (blogRun (blogMount 0 1) [.intersect true, .elapse 90]) (.intersect true)
      = blogRun (blogMount 0 1) [.intersect true, .elapse 90] :=
  ⟨reveal_effect_not_rerun.2.1 _ _ rfl, reveal_effect_not_rerun.2.2.1 _ rfl⟩

/-! ## Theorems: the replay of the reveal -/

theorem contactRevealedAt_zero (s : ContactState) (h : ContactInv s)
    (hv : s.sectionIsVisible = false) :
    ContactRevealedAt s.timers.now s.timers.nextId 0 (contactStep s (.intersect true)) := by
  rw [contactInv_show s h hv]
  obtain ⟨-, hh, hm⟩ := h.1 hv
  simp [ContactRevealedAt, contactCycleTimers, hh, hm]

theorem contactRevealedAt_elapse (now nextId t d : Nat) (s : ContactState)
    (h : ContactRevealedAt now nextId t s) :
    ContactRevealedAt now nextId (t + d) (contactStep s (.elapse d)) := by
  obtain ⟨hv, hh, hm, hc, hq⟩ := h
  have e1 : now + t + d = now + (t + d) := by omega
  rw [contact_elapse_eq]
  by_cases h1 : 100 ≤ t <;> by_cases h2 : 300 ≤ t <;> try omega
  all_goals
    by_cases g1 : 100 ≤ t + d <;> by_cases g2 : 300 ≤ t + d <;> try omega
  all_goals
    simp [ContactRevealedAt, hv, hh, hm, hc, hq, contactCycleTimers, TimerQueue.dueWithin,
      TimerQueue.advance, List.filter, e1, h1, h2, g1, g2, List.insertionSort,
      List.orderedInsert]

theorem contactRevealedAt_run (evs : List ContactEvent)
    (hvis : contactStaysVisible evs = true) (now nextId t : Nat) (s : ContactState)
    (h : ContactRevealedAt now nextId t s) :
    ContactRevealedAt now nextId (t + contactElapsed evs) (contactRun s evs) := by
  induction evs generalizing s t with
  | nil => simpa [contactElapsed, contactRun] using h
  | cons e evs ih =>
    have hrest : contactStaysVisible evs = true := by
      simp only [contactStaysVisible, List.all_cons, Bool.and_eq_true] at hvis
      exact hvis.2
    by_cases he : (∀ b, e ≠ .intersect b) ∧ (∀ ms, e ≠ .elapse ms)
    · obtain ⟨f1, f2, f3, f4, f5⟩ := contact_form_step_reveal s e he.1 he.2
      have hstep : ContactRevealedAt now nextId t (contactStep s e) := by
        unfold ContactRevealedAt
        rw [f1, f2, f3, f4, f5]
        exact h
      have hel : contactElapsed (e :: evs) = contactElapsed evs := by
        cases e with
        | elapse ms => exact absurd rfl (he.2 ms)
        | _ => rfl
      rw [hel]
      exact ih hrest t (contactStep s e) hstep
    · cases e with
      | intersect b =>
        cases b with
        | true =>
          have hsame : contactStep s (.intersect true) = s := by
            simp [contactStep, contactSetIsVisible, h.1]
          show ContactRevealedAt now nextId (t + contactElapsed evs)
            (contactRun (contactStep s (.intersect true)) evs)
          rw [hsame]
          exact ih hrest t s h
        | false => simp [contactStaysVisible] at hvis
      | elapse d =>
        have hstep := contactRevealedAt_elapse now nextId t d s h
        have := ih hrest (t + d) (contactStep s (.elapse d)) hstep
        simpa [contactElapsed, Nat.add_assoc] using this
      | changeFullName v => simp at he
      | changeEmail v => simp at he
      | changeMessage v => simp at he
      | submit => simp at he
      | settle k o => simp at he

/-- From any state of the reachable shape that is out of view, the next true edge
starts the schedule of `BlogSection` afresh. -/
theorem blog_replay (s : BlogState) (h : BlogInv s) (hv : s.sectionIsVisible = false)
    (evs : List BlogEvent) (hvis : blogStaysVisible evs = true) :
    (blogRun (blogStep s (.intersect true)) evs).headlineVisible
      = decide (100 ≤ blogElapsed evs) ∧
    (blogRun (blogStep s (.intersect true)) evs).cardVisibleStates
      = [decide (300 ≤ blogElapsed evs), decide (450 ≤ blogElapsed evs),
         decide (600 ≤ blogElapsed evs)] := by
  rw [blogRevealedAt_zero s h hv]
  obtain ⟨h2, hrun⟩ := blogRevealedAt_run evs hvis s.timers.now s.timers.nextId s.hoveredCard 0
  rw [hrun]
  simp [blogRevealedAt]

/-- From any state of the reachable shape that is out of view, the next true edge
starts the schedule of `ContactSection` afresh. -/
theorem contact_replay (s : ContactState) (h : ContactInv s) (hv : s.sectionIsVisible = false)
    (evs : List ContactEvent) (hvis : contactStaysVisible evs = true) :
    (contactRun (contactStep s (.intersect true)) evs).headlineVisible
      = decide (100 ≤ contactElapsed evs) ∧
    (contactRun (contactStep s (.intersect true)) evs).mainContentVisible
      = decide (300 ≤ contactElapsed evs) := by
  have h0 := contactRevealedAt_zero s h hv
  have hr := contactRevealedAt_run evs hvis _ _ 0 _ h0
  obtain ⟨-, hh, hm, -, -⟩ := hr
  rw [hh, hm]
  simp

theorem blogFalseEdge_hidden (now nextId : Nat) (before : List BlogEvent) :
    (blogFalseEdge now nextId before).sectionIsVisible = false := by
  have hinv := blogInv_run before _ (blogInv_mount now nextId)
  cases hv : (blogRun (blogMount now nextId) before).sectionIsVisible with
  | true => exact (blogInv_hide _ hinv hv).2.2.2.1
  | false =>
    have hsame : blogFalseEdge now nextId before = blogRun (blogMount now nextId) before := by
      simp [blogFalseEdge, blogStep, blogSetIsVisible, hv]
    rw [hsame]
    exact hv

theorem contactFalseEdge_hidden (now nextId : Nat) (before : List ContactEvent) :
    (contactFalseEdge now nextId before).sectionIsVisible = false := by
  have hinv := contactInv_run before _ (contactInv_mount now nextId)
  cases hv : (contactRun (contactMount now nextId) before).sectionIsVisible with
  | true =>
    unfold contactFalseEdge
    rw [contactInv_hide _ hinv hv]
  | false =>
    have hsame : contactFalseEdge now nextId before
        = contactRun (contactMount now nextId) before := by
      simp [contactFalseEdge, contactStep, contactSetIsVisible, hv]
    rw [hsame]
    exact hv

/-- C13: in `BlogSection` and in `ContactSection`, after any history `before` the
false edge leaves every reveal flag `false`; and when the section, after `gap` ms out
of view, comes into view again and stays in view during `evs`, then with `t` the time
passed since that true edge the headline flag is `true` iff `100 ≤ t`, the flag of
card `i < 3` iff `300 + 150 * i ≤ t` (the main content of `ContactSection` iff
`300 ≤ t`), and every flag has the value it has after the same events following the
first true edge of a freshly mounted section. -/
theorem reveal_replays_after_false_edge (now nextId now2 nextId2 : Nat) :
    (∀ (before : List BlogEvent) (gap : Nat) (evs : List BlogEvent),
      blogStaysVisible evs = true →
      (blogFalseEdge now nextId before).headlineVisible = false ∧
      (blogFalseEdge now nextId before).cardVisibleStates = [false, false, false] ∧
      (blogReplayed now nextId before gap evs).flag .headline
        = decide (100 ≤ blogElapsed evs) ∧
      (∀ i, i < 3 → (blogReplayed now nextId before gap evs).flag (.card i)
        = decide (300 + 150 * i ≤ blogElapsed evs)) ∧
      (blogReplayed now nextId before gap evs).headlineVisible
        = (blogFirstReveal now2 nextId2 evs).headlineVisible ∧
      (blogReplayed now nextId before gap evs).cardVisibleStates
        = (blogFirstReveal now2 nextId2 evs).cardVisibleStates) ∧
    (∀ (before : List ContactEvent) (gap : Nat) (evs : List ContactEvent),
      contactStaysVisible evs = true →
      (contactFalseEdge now nextId before).headlineVisible = false ∧
      (contactFalseEdge now nextId before).mainContentVisible = false ∧
      (contactReplayed now nextId before gap evs).headlineVisible
        = decide (100 ≤ contactElapsed evs) ∧
      (contactReplayed now nextId before gap evs).mainContentVisible
        = decide (300 ≤ contactElapsed evs) ∧
      (contactReplayed now nextId before gap evs).headlineVisible
        = (contactFirstReveal now2 nextId2 evs).headlineVisible ∧
      (contactReplayed now nextId before gap evs).mainContentVisible
        = (contactFirstReveal now2 nextId2 evs).mainContentVisible) := by
  constructor
  · intro before gap evs hvis
    obtain ⟨-, -, hinv⟩ := blogFalseEdge_facts now nextId before
    have hv := blogFalseEdge_hidden now nextId before
    obtain ⟨-, hh, hcards⟩ := hinv.2.1 hv
    have hinv2 := blogInv_step _ (.elapse gap) hinv
    have hv2 : (blogStep (blogFalseEdge now nextId before) (.elapse gap)).sectionIsVisible
        = false := by
      have := (blog_fire_foldl_frame ((blogFalseEdge now nextId before).timers.dueWithin gap)
        { blogFalseEdge now nextId before with
          timers := (blogFalseEdge now nextId before).timers.advance gap }).1
      show (blogElapse gap (blogFalseEdge now nextId before)).sectionIsVisible = false
      unfold blogElapse
      rw [this]
      exact hv
    obtain ⟨r1, r2⟩ := blog_replay _ hinv2 hv2 evs hvis
    obtain ⟨f1, f2⟩ := blog_replay _ (blogInv_mount now2 nextId2) rfl evs hvis
    refine ⟨hh, hcards, ?_, ?_, ?_, ?_⟩
    · simpa [BlogState.flag, blogReplayed] using r1
    · intro i hi
      have : (blogReplayed now nextId before gap evs).cardVisibleStates
          = [decide (300 ≤ blogElapsed evs), decide (450 ≤ blogElapsed evs),
             decide (600 ≤ blogElapsed evs)] := r2
      rcases i with _ | _ | _ | i
      · simp [BlogState.flag, this]
      · simp [BlogState.flag, this]
      · simp [BlogState.flag, this]
      · omega
    · show (blogReplayed now nextId before gap evs).headlineVisible = _
      unfold blogReplayed blogFirstReveal
      rw [r1, f1]
    · unfold blogReplayed blogFirstReveal
      rw [r2, f2]
  · intro before gap evs hvis
    obtain ⟨-, -, hinv⟩ := contactFalseEdge_facts now nextId before
    have hv := contactFalseEdge_hidden now nextId before
    obtain ⟨-, hh, hm⟩ := hinv.1 hv
    have hinv2 := contactInv_step _ (.elapse gap) hinv
    have hv2 : (contactStep (contactFalseEdge now nextId before) (.elapse gap)).sectionIsVisible
        = false := by
      rw [contact_elapse_eq]
      exact hv
    obtain ⟨r1, r2⟩ := contact_replay _ hinv2 hv2 evs hvis
    obtain ⟨f1, f2⟩ := contact_replay _ (contactInv_mount now2 nextId2) rfl evs hvis
    refine ⟨hh, hm, r1, r2, ?_, ?_⟩
    · unfold contactReplayed contactFirstReveal
      rw [r1, f1]
    · unfold contactReplayed contactFirstReveal
      rw [r2, f2]

theorem reveal_replays_after_false_edge_witness :
    ((blogFalseEdge 0 1 [.intersect true, .elapse 200]).headlineVisible = false ∧
      (blogReplayed 0 1 [.intersect true, .elapse 200] 50 [.elapse 90]).flag .headline
        = false ∧
      (blogReplayed 0 1 [.intersect true, .elapse 200] 50
        [.elapse 90, .mouseEnter 1, .elapse 350]).flag .headline = true ∧
      (blogReplayed 0 1 [.intersect true, .elapse 200] 50
        [.elapse 90, .mouseEnter 1, .elapse 350]).flag (.card 0) = true ∧
      (blogReplayed 0 1 [.intersect true, .elapse 200] 50
        [.elapse 90, .mouseEnter 1, .elapse 350]).flag (.card 1) = false ∧
      (blogReplayed 0 1 [.intersect true, .elapse 200] 50
        [.elapse 90, .mouseEnter 1, .elapse 350]).cardVisibleStates
        = (blogFirstReveal 0 1 [.elapse 90, .mouseEnter 1, .elapse 350]).cardVisibleStates) ∧
    ((contactFalseEdge 0 1 [.intersect true, .elapse 200]).headlineVisible = false ∧
      (contactReplayed 0 1 [.intersect true, .elapse 200] 50
        [.elapse 90, .changeFullName "Asha", .elapse 20]).headlineVisible = true ∧
      (contactReplayed 0 1 [.intersect true, .elapse 200] 50
        [.elapse 90, .changeFullName "Asha", .elapse 20]).mainContentVisible = false ∧
      (contactReplayed 0 1 [.intersect true, .elapse 200] 50
        [.elapse 90, .changeFullName "Asha", .elapse 20]).mainContentVisible
        = (contactFirstReveal 0 1
            [.elapse 90, .changeFullName "Asha", .elapse 20]).mainContentVisible) :=
  ⟨⟨((reveal_replays_after_false_edge 0 1 0 1).1 [.intersect true, .elapse 200] 50
        [.elapse 90] rfl).1,
    ((reveal_replays_after_false_edge 0 1 0 1).1 [.intersect true, .elapse 200] 50
        [.elapse 90] rfl).2.2.1,
    ((reveal_replays_after_false_edge 0 1 0 1).1 [.intersect true, .elapse 200] 50
        [.elapse 90, .mouseEnter 1, .elapse 350] rfl).2.2.1,
    ((reveal_replays_after_false_edge 0 1 0 1).1 [.intersect true, .elapse 200] 50
        [.elapse 90, .mouseEnter 1, .elapse 350] rfl).2.2.2.1 0 (by decide),
    ((reveal_replays_after_false_edge 0 1 0 1).1 [.intersect true, .elapse 200] 50
        [.elapse 90, .mouseEnter 1, .elapse 350] rfl).2.2.2.1 1 (by decide),
    ((reveal_replays_after_false_edge 0 1 0 1).1 [.intersect true, .elapse 200] 50
        [.elapse 90, .mouseEnter 1, .elapse 350] rfl).2.2.2.2.2⟩,
   ⟨((reveal_replays_after_false_edge 0 1 0 1).2 [.intersect true, .elapse 200] 50
        [.elapse 90, .changeFullName "Asha", .elapse 20] rfl).1,
    ((reveal_replays_after_false_edge 0 1 0 1).2 [.intersect true, .elapse 200] 50
        [.elapse 90, .changeFullName "Asha", .elapse 20] rfl).2.2.1,
    ((reveal_replays_after_false_edge 0 1 0 1).2 [.intersect true, .elapse 200] 50
        [.elapse 90, .changeFullName "Asha", .elapse 20] rfl).2.2.2.1,
    ((reveal_replays_after_false_edge 0 1 0 1).2 [.intersect true, .elapse 200] 50
        [.elapse 90, .changeFullName "Asha", .elapse 20] rfl).2.2.2.2.2⟩⟩

end Work2
